import Mathlib

/-!
# CD workflow repository (`internal/sql/repository/pipelineConfig/CdWorfkflowRepository.go`)

A shallow embedding of the repository layer that records deployment triggers
(`cd_workflow`) and their stage runners (`cd_workflow_runner`).

The Go code talks to PostgreSQL through the go-pg ORM.  Here a database state is a
value of type `Store` (one list of rows per table) and every repository method is a
function from the store (and the method's arguments) to the method's Go results, with
the new store in front when the method writes.  A query is the list comprehension its
SQL denotes; the clock read by `time.Now()` is an argument.  The connection is taken
to be up: a call fails only for the reasons written in its definition (no row for an
update by primary key, a key already stored, a foreign key without a target).

A row holds the Go values the ORM reads back.  A field without the `notnull` tag is
written as NULL when it holds the zero value of its type and NULL is read back as that
zero value, so in `cd_workflow_runner` an empty `Status` and a zero `StartedOn` stand
for NULL; the comparisons of the sweep, where SQL treats NULL differently from a value,
are embedded with that reading (`sqlNotEqual`, `sqlNotIn`, `sqlGreater`).
-/

namespace pipelineConfig

/-! ## Rows -/

/-- Errors a repository call can hand back (`pg.ErrNoRows`, `pg.ErrMultiRows`, a
constraint violation reported by the database, any other error with its text). -/
inductive PgError where
  | ErrNoRows
  | ErrMultiRows
  | ConstraintViolation
  | Other (text : String)
deriving DecidableEq, Repr

/-- The embedded `sql.AuditLog` columns (`created_on`, `created_by`, `updated_on`,
`updated_by`); the struct is declared in `pkg/sql`. -/
structure AuditLog where
  CreatedOn : Int
  CreatedBy : Int
  UpdatedOn : Int
  UpdatedBy : Int
deriving DecidableEq, Repr

/-- A row of `cd_workflow` (struct `CdWorkflow`, columns only). -/
structure CdWorkflow extends AuditLog where
  Id : Int
  CiArtifactId : Int
  PipelineId : Int
  WorkflowStatus : Nat
deriving DecidableEq, Repr

/-- A row of `cd_workflow_runner` (struct `CdWorkflowRunner`, columns only).  Times are
instants on an integer time line. -/
structure CdWorkflowRunner extends AuditLog where
  Id : Int
  Name : String
  WorkflowType : String
  ExecutorType : String
  Status : String
  PodStatus : String
  Message : String
  StartedOn : Int
  FinishedOn : Int
  Namespace : String
  LogLocation : String
  TriggeredBy : Int
  CdWorkflowId : Int
  PodName : String
  BlobStorageEnabled : Bool
  RefCdWorkflowRunnerId : Int
  ImagePathReservationIds : List Int
  ReferenceId : Option String
deriving DecidableEq, Repr

/-- A row of `pipeline`, with the columns the repository's queries and
`IsExternalRun` read; the struct is declared elsewhere in the package. -/
structure Pipeline where
  Id : Int
  AppId : Int
  CiPipelineId : Int
  EnvironmentId : Int
  Deleted : Bool
  RunPreStageInEnv : Bool
  RunPostStageInEnv : Bool
  DeploymentAppName : String
  DeploymentAppType : String
  DeploymentAppDeleteRequest : Bool
deriving DecidableEq, Repr

/-- A row of `deployment_config`, with the columns the sweep query joins on. -/
structure DeploymentConfig where
  Active : Bool
  AppId : Int
  EnvironmentId : Int
  DeploymentAppType : String
deriving DecidableEq, Repr

/-- The database state the repository works on: one list of rows per table. -/
structure Store where
  workflows : List CdWorkflow
  runners : List CdWorkflowRunner
  pipelines : List Pipeline
  environments : List Int
  deploymentConfigs : List DeploymentConfig
deriving DecidableEq, Repr

/-- The store with no rows. -/
def emptyStore : Store :=
  { workflows := [], runners := [], pipelines := [], environments := [], deploymentConfigs := [] }

/-! ## Constants -/

def WorkflowStarting : String := "Starting"
def WorkflowInQueue : String := "Queued"
def WorkflowInitiated : String := "Initiating"
def WorkflowInProgress : String := "Progressing"
def WorkflowAborted : String := "Aborted"
def WorkflowFailed : String := "Failed"
def WorkflowSucceeded : String := "Succeeded"
def WorkflowTimedOut : String := "TimedOut"
def WorkflowUnableToFetchState : String := "UnableToFetch"
def WorkflowTypeDeploy : String := "DEPLOY"
def WorkflowTypePre : String := "PRE"
def WorkflowTypePost : String := "POST"

/-- Modelled from the spec: `apiBean.CD_WORKFLOW_TYPE_DEPLOY` is declared in `api/bean`,
which is not part of the source at hand; it is the Deploy stage type, the value of
`WorkflowTypeDeploy`. -/
def CD_WORKFLOW_TYPE_DEPLOY : String := "DEPLOY"

/-- Modelled from the spec: `argoApplication.HIBERNATING` is declared in
`client/argocdServer/bean`, which is not part of the source at hand; the spec lists
the status as Hibernating. -/
def HIBERNATING : String := "Hibernating"

/-- Modelled from the spec: `health.HealthStatusHealthy` of the common library; the
spec lists the status as Healthy. -/
def HealthStatusHealthy : String := "Healthy"

/-- Modelled from the spec: `health.HealthStatusDegraded` of the common library; the
spec lists the status as Degraded. -/
def HealthStatusDegraded : String := "Degraded"

def WfrTerminalStatusList : List String :=
  [WorkflowAborted, WorkflowFailed, WorkflowSucceeded, HIBERNATING, HealthStatusHealthy,
    HealthStatusDegraded]

def NEW_DEPLOYMENT_INITIATED : String :=
  "A new deployment was initiated before this deployment completed!"

/-- The text of `ErrorDeploymentSuperseded = errors.New(NEW_DEPLOYMENT_INITIATED)`. -/
def ErrorDeploymentSuperseded : String := NEW_DEPLOYMENT_INITIATED

/-! ## Query building blocks -/

/-- The join `cd_workflow.id = cd_workflow_runner.cd_workflow_id` restricted by
`pipeline_id = pipelineId`: the runner has a workflow row in that pipeline. -/
def runnerInPipeline (s : Store) (r : CdWorkflowRunner) (pipelineId : Int) : Bool :=
  s.workflows.any (fun wf => decide (wf.Id = r.CdWorkflowId) && decide (wf.PipelineId = pipelineId))

/-- Modelled from the spec: `util.GetTruncatedMessage` is declared in `internal/util`,
which is not part of the source at hand; the spec has the message truncated to its
first `maxLength` characters, a message within the bound being kept as it is. -/
def GetTruncatedMessage (message : String) (maxLength : Nat) : String :=
  if message.length > maxLength then String.mk (message.data.take maxLength) else message

/-- The ORM call `dbConnection.Update(wfr)`: every column of the rows whose primary
key is `wfr.Id` is overwritten with `wfr`; the call reports `ErrNoRows` when no row
was affected and `ErrMultiRows` when more than one was. -/
def dbUpdateRunner (s : Store) (wfr : CdWorkflowRunner) : Store × Option PgError :=
  match (s.runners.filter (fun r => decide (r.Id = wfr.Id))).length with
  | 0 => (s, some PgError.ErrNoRows)
  | 1 => ({ s with runners := s.runners.map (fun r => if r.Id = wfr.Id then wfr else r) }, none)
  | _ + 2 =>
    ({ s with runners := s.runners.map (fun r => if r.Id = wfr.Id then wfr else r) },
      some PgError.ErrMultiRows)

/-- The next value of the serial primary key of a table whose ids in use are `ids`:
greater than every id in use (the serial is ahead of the ids it has handed out). -/
def nextId (ids : List Int) : Int :=
  ids.foldl max 0 + 1

/-! ## Repository methods -/

/-- Method `SaveWorkFlow`: `dbConnection.Insert(wf)`.  For a zero `Id` the database
assigns the primary key from its serial; a non-zero `Id` is kept as supplied and the
insert is refused when a row of that id is stored already.  The other columns are held
as they are read back; a zero `PipelineId` is NULL in the database, so workflows are
created for pipelines of non-zero id. -/
def SaveWorkFlow (s : Store) (wf : CdWorkflow) : Store × CdWorkflow × Option PgError :=
  if wf.Id = 0 then
    let saved := { wf with Id := nextId (s.workflows.map (fun w => w.Id)) }
    ({ s with workflows := s.workflows ++ [saved] }, saved, none)
  else if s.workflows.any (fun w => decide (w.Id = wf.Id)) then
    (s, wf, some PgError.ConstraintViolation)
  else ({ s with workflows := s.workflows ++ [wf] }, wf, none)

/-- Method `SaveWorkFlowRunner`: `dbConnection.Insert(wfr)`, returning the row as
inserted.  The foreign key `cd_workflow_id` must name a workflow row; otherwise the
insert is refused.  For a zero `Id` the database assigns the primary key from its
serial; a non-zero `Id` is kept as supplied and the insert is refused when a row of that
id is stored already.  The other columns are stored as supplied. -/
def SaveWorkFlowRunner (s : Store) (wfr : CdWorkflowRunner) :
    Store × CdWorkflowRunner × Option PgError :=
  if s.workflows.any (fun wf => decide (wf.Id = wfr.CdWorkflowId)) then
    if wfr.Id = 0 then
      let saved := { wfr with Id := nextId (s.runners.map (fun r => r.Id)) }
      ({ s with runners := s.runners ++ [saved] }, saved, none)
    else if s.runners.any (fun r => decide (r.Id = wfr.Id)) then
      (s, wfr, some PgError.ConstraintViolation)
    else ({ s with runners := s.runners ++ [wfr] }, wfr, none)
  else (s, wfr, some PgError.ConstraintViolation)

/-- Method `UpdateWorkFlowRunner`: truncate the message to 1000, then update by primary key. -/
def UpdateWorkFlowRunner (s : Store) (wfr : CdWorkflowRunner) : Store × Option PgError :=
  let wfr := { wfr with Message := GetTruncatedMessage wfr.Message 1000 }
  dbUpdateRunner s wfr

/-- Method `GetPreviousQueuedRunners`: the Deploy runners of the pipeline with a smaller id
than `cdWfrId` whose status is `Queued`. -/
def GetPreviousQueuedRunners (s : Store) (cdWfrId pipelineId : Int) :
    List CdWorkflowRunner × Option PgError :=
  (s.runners.filter (fun r =>
      decide (r.WorkflowType = CD_WORKFLOW_TYPE_DEPLOY)
        && runnerInPipeline s r pipelineId
        && decide (r.Id < cdWfrId)
        && decide (r.Status = WorkflowInQueue)),
    none)

/-- The `SET` clause of `UpdateRunnerStatusToFailedForIds` applied to a row: status,
finished_on, updated_on, updated_by and message are overwritten. -/
def failedRow (r : CdWorkflowRunner) (finishedNow updatedNow : Int) (errMsg : String)
    (triggeredBy : Int) : CdWorkflowRunner :=
  { r with Status := WorkflowFailed, FinishedOn := finishedNow, UpdatedOn := updatedNow,
           UpdatedBy := triggeredBy, Message := errMsg }

/-- Method `UpdateRunnerStatusToFailedForIds`: nothing for an empty id list; otherwise one
`UPDATE ... WHERE id IN (cdWfrIds)` setting status, finished_on, updated_on, updated_by
and message.  `finishedNow` and `updatedNow` are the two readings of `time.Now()`. -/
def UpdateRunnerStatusToFailedForIds (s : Store) (finishedNow updatedNow : Int)
    (errMsg : String) (triggeredBy : Int) (cdWfrIds : List Int) : Store × Option PgError :=
  if cdWfrIds.length = 0 then (s, none)
  else
    ({ s with runners := s.runners.map (fun r =>
        if r.Id ∈ cdWfrIds then failedRow r finishedNow updatedNow errMsg triggeredBy else r) },
      none)

/-- Method `UpdateWorkFlowRunners`: update the rows one after the other, stopping at the first
error. -/
def UpdateWorkFlowRunners (s : Store) : List CdWorkflowRunner → Store × Option PgError
  | [] => (s, none)
  | wfr :: rest =>
    match dbUpdateRunner s wfr with
    | (s1, some err) => (s1, some err)
    | (s1, none) => UpdateWorkFlowRunners s1 rest

/-- Method `IsLatestCDWfr`: no Deploy runner of the pipeline has a greater id than `wfrId`. -/
def IsLatestCDWfr (s : Store) (pipelineId wfrId : Int) : Bool × Option PgError :=
  let ifAnySuccessorWfrExists := s.runners.any (fun r =>
    runnerInPipeline s r pipelineId
      && decide (r.WorkflowType = CD_WORKFLOW_TYPE_DEPLOY)
      && decide (r.Id > wfrId))
  (!ifAnySuccessorWfrExists, none)

/-- Method `IsLatestWf`: no workflow of the pipeline has a greater id than `wfId`. -/
def IsLatestWf (s : Store) (pipelineId wfId : Int) : Bool × Option PgError :=
  let found := s.workflows.any (fun wf =>
    decide (wf.PipelineId = pipelineId) && decide (wf.Id > wfId))
  (!found, none)

/-! ## Retry chain and duplicate deliveries -/

/-- Method `FindRetriedWorkflowCountByReferenceId`: `select count(id) from
cd_workflow_runner where ref_cd_workflow_runner_id = wfrId`. -/
def FindRetriedWorkflowCountByReferenceId (s : Store) (wfrId : Int) : Nat × Option PgError :=
  ((s.runners.filter (fun r => decide (r.RefCdWorkflowRunnerId = wfrId))).length, none)

/-- The ORM call `Exists()`: it runs the query with `LIMIT 1`; when the statement fails
with an error the call returns `false` with that error, otherwise whether a row came
back.  `failure` is the error of the statement, if there is one. -/
def queryExists (failure : Option PgError) (found : Bool) : Bool × Option PgError :=
  match failure with
  | some err => (false, some err)
  | none => (found, none)

/-- Method `CheckWorkflowRunnerByReferenceId`: the existence query on `reference_id =
referenceId` (a row without reference id never matches), with `pg.ErrNoRows` turned into
`false` without error.  `failure` is what the statement fails with, if it does. -/
def CheckWorkflowRunnerByReferenceId (s : Store) (failure : Option PgError)
    (referenceId : String) : Bool × Option PgError :=
  match queryExists failure
      (s.runners.any (fun r => decide (r.ReferenceId = some referenceId))) with
  | (found, err) =>
    if err = some PgError.ErrNoRows then (false, none) else (found, err)

/-- Modelled from the spec: the trigger service is not part of the source at hand.  A
trigger that carries a reference id first asks `CheckWorkflowRunnerByReferenceId`; when
the answer is true it reports a duplicate and inserts nothing, when the check itself
fails it inserts nothing, otherwise it inserts the runner with that reference id through
`SaveWorkFlowRunner`.  The second component is the duplicate signal. -/
def triggerWithReferenceId (s : Store) (wfr : CdWorkflowRunner) (referenceId : String) :
    Store × Bool :=
  match CheckWorkflowRunnerByReferenceId s none referenceId with
  | (true, _) => (s, true)
  | (false, some _) => (s, false)
  | (false, none) => ((SaveWorkFlowRunner s { wfr with ReferenceId := some referenceId }).1, false)

/-! ## The latest workflow of a pipeline -/

/-- The row that `ORDER BY id DESC LIMIT 1` keeps: one of greatest id. -/
def latestWorkflow : List CdWorkflow → Option CdWorkflow
  | [] => none
  | wf :: rest =>
    match latestWorkflow rest with
    | none => some wf
    | some best => if best.Id > wf.Id then some best else some wf

/-- The value of `&CdWorkflow{}`. -/
def zeroCdWorkflow : CdWorkflow :=
  { CreatedOn := 0, CreatedBy := 0, UpdatedOn := 0, UpdatedBy := 0,
    Id := 0, CiArtifactId := 0, PipelineId := 0, WorkflowStatus := 0 }

/-- Method `FindLatestCdWorkflowByPipelineId`: the workflow of greatest id among the
listed pipelines; selecting into one struct reports `pg.ErrNoRows` when there is none and
leaves the struct as allocated.  The method has no guard for an empty id list: `pg.In`
then renders `pipeline_id in ()`, which the database rejects as a syntax error. -/
def FindLatestCdWorkflowByPipelineId (s : Store) (pipelineIds : List Int) :
    CdWorkflow × Option PgError :=
  if pipelineIds.length = 0 then
    (zeroCdWorkflow, some (PgError.Other "syntax error in the id list"))
  else
    match latestWorkflow
        (s.workflows.filter (fun wf => decide (wf.PipelineId ∈ pipelineIds))) with
    | some wf => (wf, none)
    | none => (zeroCdWorkflow, some PgError.ErrNoRows)

/-! ## Grouped queries -/

/-- The greatest element of a list of ids (of a non-empty group). -/
def maxOfIds : List Int → Int
  | [] => 0
  | i :: rest => rest.foldl max i

/-- The shape `SELECT key, max(id) ... GROUP BY key` over rows of a key and an id: one
row for each key that occurs, with the greatest id found under that key. -/
def groupMax {κ : Type} [DecidableEq κ] (rows : List (κ × Int)) : List (κ × Int) :=
  (rows.map (fun row => row.1)).dedup.map (fun k =>
    (k, maxOfIds ((rows.filter (fun row => decide (row.1 = k))).map (fun row => row.2))))

/-- A row of the result of `FetchAllCdStagesLatestEntity` (struct `CdWorkflowStatus`). -/
structure CdWorkflowStatus where
  CiPipelineId : Int
  PipelineId : Int
  PipelineName : String
  DeployStatus : String
  PreStatus : String
  PostStatus : String
  WorkflowType : String
  WfrId : Int
  DeploymentAppDeleteRequest : Bool
deriving DecidableEq, Repr

/-- Method `FetchAllCdStagesLatestEntity`: nothing and no error for an empty id list;
otherwise, over the runners joined to their workflow and pipeline and restricted to the
listed pipelines, the greatest runner id for each (ci pipeline, pipeline, stage type),
greatest id first.  `sqlIntSeq` renders the id list for `in (...)`. -/
def FetchAllCdStagesLatestEntity (s : Store) (pipelineIds : List Int) :
    List CdWorkflowStatus × Option PgError :=
  if pipelineIds.length = 0 then ([], none)
  else
    let joined : List ((Int × Int × String) × Int) :=
      s.runners.flatMap (fun wfr =>
        (s.workflows.filter (fun wf => decide (wf.Id = wfr.CdWorkflowId))).flatMap (fun wf =>
          ((s.pipelines.filter (fun p => decide (p.Id = wf.PipelineId))).filter
              (fun _ => decide (wf.PipelineId ∈ pipelineIds))).map
            (fun p => ((p.CiPipelineId, wf.PipelineId, wfr.WorkflowType), wfr.Id))))
    let grouped := groupMax joined
    let ordered := grouped.insertionSort (fun a b => a.2 ≥ b.2)
    (ordered.map (fun row =>
        { CiPipelineId := row.1.1, PipelineId := row.1.2.1, PipelineName := "",
          DeployStatus := "", PreStatus := "", PostStatus := "",
          WorkflowType := row.1.2.2, WfrId := row.2, DeploymentAppDeleteRequest := false }),
      none)

/-- Method `FindLatestRunnerByPipelineIdsAndRunnerType`: for a nil or empty id list, no
rows and `pg.ErrNoRows`; otherwise the runners of the given stage type whose workflow is
in a listed pipeline that is not deleted.  The query groups by the primary keys of the
runner, its workflow and its pipeline, so each group is one joined row and
`MAX(cd_workflow_runner.id)` is the id of that very row. -/
def FindLatestRunnerByPipelineIdsAndRunnerType (s : Store) (pipelineIds : List Int)
    (runnerType : String) : List CdWorkflowRunner × Option PgError :=
  if pipelineIds.length = 0 then ([], some PgError.ErrNoRows)
  else
    (s.runners.filter (fun wfr =>
        s.workflows.any (fun wf =>
          decide (wf.Id = wfr.CdWorkflowId) && decide (wf.PipelineId ∈ pipelineIds)
            && s.pipelines.any (fun p => decide (p.Id = wf.PipelineId) && !p.Deleted))
          && decide (wfr.WorkflowType = runnerType)),
      none)

/-! ## The sweep for stuck deployments -/

/-- Modelled from the spec: `util.PIPELINE_DEPLOYMENT_TYPE_HELM` is declared in
`internal/util`, which is not part of the source at hand; it names the deployment type
of the pipelines the spec calls poll-based (Helm). -/
def PIPELINE_DEPLOYMENT_TYPE_HELM : String := "helm"

/-- The length of an hour on the time line, which is counted in seconds from the Unix
epoch. -/
def hourLength : Int := 3600

/-- The zero value of `time.Time` (the first instant of year 1, UTC) on the time line; a
time field holding it is written as NULL. -/
def zeroTime : Int := -62135596800

/-- SQL `column != value` on a text column written from a field without `notnull`: the
empty string is stored as NULL, and a NULL is not different from anything. -/
def sqlNotEqual (column value : String) : Bool :=
  !(column == "") && !(column == value)

/-- SQL `column not in (values)` on a text column written from a field without
`notnull`: the empty string is stored as NULL, and a NULL is outside no list. -/
def sqlNotIn (column : String) (values : List String) : Bool :=
  !(column == "") && !(values.contains column)

/-- SQL `column > bound` on a time column written from a field without `notnull`: the
zero time is stored as NULL, and a NULL is greater than nothing. -/
def sqlGreater (column bound : Int) : Bool :=
  !(column == zeroTime) && decide (column > bound)

/-- The subquery of the sweep: `SELECT max(cd_workflow.id) FROM cd_workflow INNER JOIN
cd_workflow_runner ON ... WHERE cd_workflow_runner.status != 'Queued' GROUP BY
cd_workflow.pipeline_id`; a runner whose status is NULL does not pass the `WHERE`. -/
def latestStartedWorkflowIds (s : Store) : List Int :=
  (groupMax (s.workflows.flatMap (fun wf =>
      (s.runners.filter (fun r =>
          decide (wf.Id = r.CdWorkflowId) && sqlNotEqual r.Status WorkflowInQueue)).map
        (fun _ => (wf.PipelineId, wf.Id))))).map (fun row => row.2)

/-- The rows a `LEFT JOIN` pairs with one left row: the matches, or one null row. -/
def leftJoinRows {α : Type} (found : List α) : List (Option α) :=
  match found with
  | [] => [none]
  | _ :: _ => found.map some

/-- Method `GetLatestTriggersOfHelmPipelinesStuckInNonTerminalStatuses`: the Deploy
runners, joined to workflow, pipeline, environment and (left join) the active deployment
config of the pipeline's app and environment, whose status (not NULL) is outside the
terminal list and outside Initiating, Queued, Starting, whose workflow id is among the
subquery's, whose
pipeline or deployment config is of type helm, whose start (not NULL) is after `now`
minus the given hours and whose pipeline is not deleted; greatest runner id first.
`now` is the database's `NOW()`. -/
def GetLatestTriggersOfHelmPipelinesStuckInNonTerminalStatuses (s : Store) (now : Int)
    (getPipelineDeployedWithinHours : Int) : List CdWorkflowRunner × Option PgError :=
  let excludedStatusList :=
    WfrTerminalStatusList ++ [WorkflowInitiated, WorkflowInQueue, WorkflowStarting]
  let wfrList := s.runners.flatMap (fun wfr =>
    (s.workflows.filter (fun wf => decide (wf.Id = wfr.CdWorkflowId))).flatMap (fun wf =>
      (s.pipelines.filter (fun p => decide (p.Id = wf.PipelineId))).flatMap (fun p =>
        (s.environments.filter (fun e => decide (e = p.EnvironmentId))).flatMap (fun _ =>
          ((leftJoinRows (s.deploymentConfigs.filter (fun dc =>
                dc.Active && decide (dc.AppId = p.AppId)
                  && decide (dc.EnvironmentId = p.EnvironmentId)))).filter (fun dc =>
              decide (wfr.WorkflowType = CD_WORKFLOW_TYPE_DEPLOY)
                && sqlNotIn wfr.Status excludedStatusList
                && decide (wfr.CdWorkflowId ∈ latestStartedWorkflowIds s)
                && (decide (p.DeploymentAppType = PIPELINE_DEPLOYMENT_TYPE_HELM)
                    || (match dc with
                        | some c => decide (c.DeploymentAppType = PIPELINE_DEPLOYMENT_TYPE_HELM)
                        | none => false))
                && sqlGreater wfr.StartedOn (now - getPipelineDeployedWithinHours * hourLength)
                && !p.Deleted)).map (fun _ => wfr)))))
  (wfrList.insertionSort (fun a b => a.Id ≥ b.Id), none)

/-! ## The trigger transaction and the executor callback -/

/-- Modelled from the spec: the trigger service that calls the repository is not part
of the source at hand.  The spec's Queue Manager contract has a new Deploy trigger insert
its runner and, in the same transaction, mark the runners returned by
`GetPreviousQueuedRunners` for it as failed with the supersede message. -/
def triggerDeploy (s : Store) (finishedNow updatedNow : Int) (pipelineId : Int)
    (wfr : CdWorkflowRunner) (triggeredBy : Int) : Store :=
  match SaveWorkFlowRunner s wfr with
  | (s1, saved, none) =>
    (UpdateRunnerStatusToFailedForIds s1 finishedNow updatedNow ErrorDeploymentSuperseded
      triggeredBy ((GetPreviousQueuedRunners s1 saved.Id pipelineId).1.map (fun r => r.Id))).1
  | (s1, _, some _) => s1

/-- Modelled from the spec: the executor callback handler is not part of the source at
hand.  It takes a stored runner, sets the reported status, pod status, message and
timestamps on it and writes it back with `UpdateWorkFlowRunner`. -/
def executorStatusUpdate (s : Store) (r : CdWorkflowRunner) (status podStatus message : String)
    (finishedOn updatedOn : Int) : Store :=
  (UpdateWorkFlowRunner s { r with Status := status, PodStatus := podStatus, Message := message,
                                   FinishedOn := finishedOn, UpdatedOn := updatedOn }).1

/-- The stores reachable from the empty store by creating workflows, by Deploy triggers
(insert, then fail the previously queued runners) and by executor status updates whose
reported status satisfies `allowed`.  A created workflow and a triggered runner are new
rows: their `Id` is zero and the database assigns it; a trigger is for a pipeline, whose
id is a database key and so not zero. -/
inductive Reachable (allowed : String → Bool) : Store → Prop where
  | empty : Reachable allowed emptyStore
  | saveWorkflow (s : Store) (wf : CdWorkflow) :
      Reachable allowed s → wf.Id = 0 → Reachable allowed (SaveWorkFlow s wf).1
  | trigger (s : Store) (finishedNow updatedNow pipelineId : Int) (wfr : CdWorkflowRunner)
      (triggeredBy : Int) :
      Reachable allowed s → wfr.WorkflowType = CD_WORKFLOW_TYPE_DEPLOY →
      wfr.Id = 0 → pipelineId ≠ 0 →
      runnerInPipeline s wfr pipelineId = true →
      Reachable allowed (triggerDeploy s finishedNow updatedNow pipelineId wfr triggeredBy)
  | executorUpdate (s : Store) (r : CdWorkflowRunner) (status podStatus message : String)
      (finishedOn updatedOn : Int) :
      Reachable allowed s → r ∈ s.runners → allowed status = true →
      Reachable allowed (executorStatusUpdate s r status podStatus message finishedOn updatedOn)

/-- The Deploy-stage runners of a pipeline. -/
def deployRunnersOf (s : Store) (pipelineId : Int) : List CdWorkflowRunner :=
  s.runners.filter (fun r =>
    decide (r.WorkflowType = CD_WORKFLOW_TYPE_DEPLOY) && runnerInPipeline s r pipelineId)

/-- The Deploy-stage runners of a pipeline whose status is neither in
`WfrTerminalStatusList` nor `Queued`. -/
def activeDeployRunners (s : Store) (pipelineId : Int) : List CdWorkflowRunner :=
  (deployRunnersOf s pipelineId).filter (fun r =>
    !(WfrTerminalStatusList.contains r.Status) && !(r.Status == WorkflowInQueue))

/-- The Deploy-stage runners of a pipeline whose status is `Queued`. -/
def queuedDeployRunners (s : Store) (pipelineId : Int) : List CdWorkflowRunner :=
  (deployRunnersOf s pipelineId).filter (fun r => r.Status == WorkflowInQueue)

/-! ## Example rows -/

/-- A workflow row of the given id and pipeline, the other columns zero. -/
def exampleWorkflow (id pipelineId : Int) : CdWorkflow :=
  { CreatedOn := 0, CreatedBy := 0, UpdatedOn := 0, UpdatedBy := 0,
    Id := id, CiArtifactId := 0, PipelineId := pipelineId, WorkflowStatus := 0 }

/-- A runner row of the given id, workflow, stage, status and message, the other columns
empty. -/
def exampleRunner (id cdWorkflowId : Int) (workflowType status message : String) :
    CdWorkflowRunner :=
  { CreatedOn := 0, CreatedBy := 0, UpdatedOn := 0, UpdatedBy := 0,
    Id := id, Name := "", WorkflowType := workflowType, ExecutorType := "AWF",
    Status := status, PodStatus := "", Message := message, StartedOn := 0, FinishedOn := 0,
    Namespace := "", LogLocation := "", TriggeredBy := 1, CdWorkflowId := cdWorkflowId,
    PodName := "", BlobStorageEnabled := false, RefCdWorkflowRunnerId := 0,
    ImagePathReservationIds := [], ReferenceId := none }

/-- Pipeline 7 with one workflow and the Deploy runners 1 (Queued), 2 (Queued) and the
newly inserted 3 (Queued). -/
def supersedeScenario : Store :=
  { emptyStore with
    workflows := [exampleWorkflow 1 7]
    runners := [exampleRunner 1 1 "DEPLOY" "Queued" "", exampleRunner 2 1 "DEPLOY" "Queued" "",
      exampleRunner 3 1 "DEPLOY" "Queued" ""] }

/-- A message of 1001 characters. -/
def longMessage : String := String.mk (List.replicate 1001 'x')

/-- Pipeline 7 after: a workflow is created; a Deploy trigger inserts runner 1 (Queued);
the executor reports runner 1 Progressing; a second Deploy trigger inserts runner 2
(Queued) and drains the queue; the executor reports runner 2 Progressing. -/
def twoInFlight : Store :=
  let s1 := (SaveWorkFlow emptyStore (exampleWorkflow 0 7)).1
  let s2 := triggerDeploy s1 10 10 7 (exampleRunner 0 1 "DEPLOY" "Queued" "") 1
  let s3 := executorStatusUpdate s2 (exampleRunner 1 1 "DEPLOY" "Queued" "") "Progressing" "" "" 0 11
  let s4 := triggerDeploy s3 20 20 7 (exampleRunner 0 1 "DEPLOY" "Queued" "") 1
  executorStatusUpdate s4 (exampleRunner 2 1 "DEPLOY" "Queued" "") "Progressing" "" "" 0 21

/-- Pipeline 7 after: a workflow is created; a Deploy trigger inserts runner 1 (Queued);
a second Deploy trigger inserts runner 2 (Queued) and fails runner 1. -/
def queuedThenSuperseded : Store :=
  let s1 := (SaveWorkFlow emptyStore (exampleWorkflow 0 7)).1
  let s2 := triggerDeploy s1 10 10 7 (exampleRunner 0 1 "DEPLOY" "Queued" "") 1
  triggerDeploy s2 20 20 7 (exampleRunner 0 1 "DEPLOY" "Queued" "") 1

/-- A pipeline row of the given id and deployment type, in app 1 and environment 1, not
deleted. -/
def examplePipeline (id : Int) (deploymentAppType : String) : Pipeline :=
  { Id := id, AppId := 1, CiPipelineId := 0, EnvironmentId := 1, Deleted := false,
    RunPreStageInEnv := false, RunPostStageInEnv := false, DeploymentAppName := "",
    DeploymentAppType := deploymentAppType, DeploymentAppDeleteRequest := false }

/-- The sweep scenario at time 360000: pipeline 1 (helm) has workflow 1 with Deploy
runner 10 (Succeeded, started at 0) and workflow 2 with Deploy runner 20 (Progressing,
started two hours ago); pipeline 2 (helm) has workflow 3 with Deploy runner 30
(Queued). -/
def sweepScenario : Store :=
  { workflows := [exampleWorkflow 1 1, exampleWorkflow 2 1, exampleWorkflow 3 2]
    runners :=
      [{ exampleRunner 10 1 "DEPLOY" "Succeeded" "" with StartedOn := 0 },
        { exampleRunner 20 2 "DEPLOY" "Progressing" "" with StartedOn := 352800 },
        { exampleRunner 30 3 "DEPLOY" "Queued" "" with StartedOn := 352800 }]
    pipelines := [examplePipeline 1 "helm", examplePipeline 2 "helm"]
    environments := [1]
    deploymentConfigs := [] }

/-- Deploy runner 1 of workflow 1, saved without a status, started at time 352800. -/
def emptyStatusRunner : CdWorkflowRunner :=
  { exampleRunner 1 1 "DEPLOY" "" "" with StartedOn := 352800 }

/-- One helm pipeline whose single workflow holds `emptyStatusRunner`. -/
def emptyStatusScenario : Store :=
  { workflows := [exampleWorkflow 1 1]
    runners := [emptyStatusRunner]
    pipelines := [examplePipeline 1 "helm"]
    environments := [1]
    deploymentConfigs := [] }

/-- One helm pipeline whose single workflow holds two Deploy runners, both Progressing
and started two hours before time 360000. -/
def twoDeployRunnersInOneWorkflow : Store :=
  { workflows := [exampleWorkflow 1 1]
    runners :=
      [{ exampleRunner 1 1 "DEPLOY" "Progressing" "" with StartedOn := 352800 },
        { exampleRunner 2 1 "DEPLOY" "Progressing" "" with StartedOn := 352800 }]
    pipelines := [examplePipeline 1 "helm"]
    environments := [1]
    deploymentConfigs := [] }

/-! ## Runners with their relations loaded -/

/-- A `CdWorkflow` value as the ORM hands it back: the row and the `Pipeline` pointer,
which is nil unless the relation was selected. -/
structure CdWorkflowWithRelations extends CdWorkflow where
  Pipeline : Option Pipeline
deriving DecidableEq, Repr

/-- A `CdWorkflowRunner` value as the ORM hands it back: the row and the `CdWorkflow`
pointer, which is nil unless the relation was selected. -/
structure CdWorkflowRunnerWithRelations extends CdWorkflowRunner where
  CdWorkflow : Option CdWorkflowWithRelations
deriving DecidableEq, Repr

/-- Method `IsExternalRun`: the pipeline's `RunPreStageInEnv` for a PRE runner, its
`RunPostStageInEnv` for a POST runner, false otherwise.  The pointers `c.CdWorkflow` and
`c.CdWorkflow.Pipeline` are followed only in the first two branches; following a nil
pointer panics, which is the result `none`. -/
def IsExternalRun (c : CdWorkflowRunnerWithRelations) : Option Bool :=
  if c.WorkflowType = WorkflowTypePre then
    match c.CdWorkflow with
    | none => none
    | some wf =>
      match wf.Pipeline with
      | none => none
      | some pipeline => some pipeline.RunPreStageInEnv
  else if c.WorkflowType = WorkflowTypePost then
    match c.CdWorkflow with
    | none => none
    | some wf =>
      match wf.Pipeline with
      | none => none
      | some pipeline => some pipeline.RunPostStageInEnv
  else some false

/-- A PRE runner of workflow 1 whose pipeline runs the pre stage in the environment and
the post stage outside it. -/
def examplePreRunner : CdWorkflowRunnerWithRelations :=
  { exampleRunner 5 1 "PRE" "Progressing" "" with
    CdWorkflow := some
      { exampleWorkflow 1 1 with
        Pipeline := some { examplePipeline 1 "helm" with RunPreStageInEnv := true } } }

/-! ## Latest-trigger checks -/

theorem runnerInPipeline_iff (s : Store) (r : CdWorkflowRunner) (pipelineId : Int) :
    runnerInPipeline s r pipelineId = true ↔
      ∃ wf ∈ s.workflows, wf.Id = r.CdWorkflowId ∧ wf.PipelineId = pipelineId := by
  simp [runnerInPipeline]

/-- C1: `IsLatestWf(P, W)` returns false exactly when the store holds a workflow of
pipeline `P` whose id is strictly greater than `W`, returns true otherwise, and reports
no error. -/
theorem IsLatestWf_false_iff (s : Store) (P W : Int) :
    ((IsLatestWf s P W).1 = false ↔ ∃ wf ∈ s.workflows, wf.PipelineId = P ∧ W < wf.Id)
      ∧ ((IsLatestWf s P W).1 = true ↔ ¬ ∃ wf ∈ s.workflows, wf.PipelineId = P ∧ W < wf.Id)
      ∧ (IsLatestWf s P W).2 = none := by
  simp [IsLatestWf]

/-- C2: `IsLatestCDWfr(P, R)` returns true exactly when no Deploy-stage runner with id
strictly greater than `R` has a workflow in pipeline `P`; a runner of another stage, or
one without a workflow in `P`, never makes it false.  No error is reported. -/
theorem IsLatestCDWfr_true_iff (s : Store) (P R : Int) :
    ((IsLatestCDWfr s P R).1 = true ↔
        ¬ ∃ r ∈ s.runners, r.WorkflowType = CD_WORKFLOW_TYPE_DEPLOY ∧ R < r.Id ∧
            ∃ wf ∈ s.workflows, wf.Id = r.CdWorkflowId ∧ wf.PipelineId = P)
      ∧ (∀ r : CdWorkflowRunner,
          r.WorkflowType = WorkflowTypePre ∨ r.WorkflowType = WorkflowTypePost
            ∨ runnerInPipeline s r P = false →
          IsLatestCDWfr { s with runners := r :: s.runners } P R = IsLatestCDWfr s P R)
      ∧ (IsLatestCDWfr s P R).2 = none := by
  refine ⟨?_, ?_, rfl⟩
  · simp only [IsLatestCDWfr, Bool.not_eq_true', List.any_eq_false, Bool.and_eq_true,
      decide_eq_true_eq, runnerInPipeline_iff, gt_iff_lt]
    constructor
    · rintro h ⟨r, hr, hty, hlt, hwf⟩
      exact h r hr ⟨⟨hwf, hty⟩, hlt⟩
    · rintro h r hr ⟨⟨hwf, hty⟩, hlt⟩
      exact h ⟨r, hr, hty, hlt, hwf⟩
  · intro r hr
    have hskip : (runnerInPipeline s r P && decide (r.WorkflowType = CD_WORKFLOW_TYPE_DEPLOY)
        && decide (r.Id > R)) = false := by
      rcases hr with h | h | h
      · have : ¬ r.WorkflowType = CD_WORKFLOW_TYPE_DEPLOY := by rw [h]; decide
        simp [this]
      · have : ¬ r.WorkflowType = CD_WORKFLOW_TYPE_DEPLOY := by rw [h]; decide
        simp [this]
      · simp [h]
    simp only [IsLatestCDWfr, runnerInPipeline, List.any_cons] at hskip ⊢
    rw [hskip, Bool.false_or]

/-! ## Queue manager -/

/-- C3: `GetPreviousQueuedRunners(N, P)` returns exactly the runners of the store that
are Deploy-stage, have a workflow in pipeline `P`, have id strictly less than `N` and
have status `Queued`; each is returned as often as it is stored, and no error is
reported. -/
theorem GetPreviousQueuedRunners_exact (s : Store) (N P : Int) :
    (∀ r, r ∈ (GetPreviousQueuedRunners s N P).1 ↔
        r ∈ s.runners ∧ r.WorkflowType = CD_WORKFLOW_TYPE_DEPLOY
          ∧ (∃ wf ∈ s.workflows, wf.Id = r.CdWorkflowId ∧ wf.PipelineId = P)
          ∧ r.Id < N ∧ r.Status = "Queued")
      ∧ (∀ r, (GetPreviousQueuedRunners s N P).1.count r ≤ s.runners.count r)
      ∧ (∀ r, r ∈ (GetPreviousQueuedRunners s N P).1 →
          (GetPreviousQueuedRunners s N P).1.count r = s.runners.count r)
      ∧ (GetPreviousQueuedRunners s N P).2 = none := by
  refine ⟨?_, ?_, ?_, rfl⟩
  · intro r
    simp only [GetPreviousQueuedRunners, List.mem_filter, Bool.and_eq_true, decide_eq_true_eq,
      runnerInPipeline_iff, WorkflowInQueue]
    tauto
  · intro r
    exact List.Sublist.count_le (List.filter_sublist _) r
  · intro r hr
    simp only [GetPreviousQueuedRunners] at hr ⊢
    exact List.count_filter (List.mem_filter.mp hr).2

/-! ## Marking runners failed -/

theorem failForIds_runners (s : Store) (t1 t2 : Int) (msg : String) (actor : Int)
    (ids : List Int) :
    (UpdateRunnerStatusToFailedForIds s t1 t2 msg actor ids).1.runners =
      s.runners.map (fun r => if r.Id ∈ ids then failedRow r t1 t2 msg actor else r) := by
  unfold UpdateRunnerStatusToFailedForIds
  split
  · rename_i h
    have hnil : ids = [] := List.length_eq_zero.mp h
    subst hnil
    simp
  · rfl

theorem failForIds_workflows (s : Store) (t1 t2 : Int) (msg : String) (actor : Int)
    (ids : List Int) :
    (UpdateRunnerStatusToFailedForIds s t1 t2 msg actor ids).1.workflows = s.workflows := by
  unfold UpdateRunnerStatusToFailedForIds
  split <;> rfl

theorem runnerInPipeline_congr (s s1 : Store) (r r1 : CdWorkflowRunner) (P : Int)
    (hw : s1.workflows = s.workflows) (hr : r1.CdWorkflowId = r.CdWorkflowId) :
    runnerInPipeline s1 r1 P = runnerInPipeline s r P := by
  simp [runnerInPipeline, hw, hr]

theorem failedRow_status_ne_queued (r : CdWorkflowRunner) (t1 t2 : Int) (msg : String)
    (actor : Int) : (failedRow r t1 t2 msg actor).Status ≠ WorkflowInQueue := by
  simp only [failedRow]
  decide

/-- C6: once the runners returned by `GetPreviousQueuedRunners(N, P)` have been passed to
`UpdateRunnerStatusToFailedForIds` (any message, any actor), a second
`GetPreviousQueuedRunners(N, P)` returns the empty list without error: no Deploy runner
of `P` with id below `N` is Queued any more. -/
theorem GetPreviousQueuedRunners_after_drain (s : Store) (N P t1 t2 : Int) (msg : String)
    (actor : Int) :
    GetPreviousQueuedRunners
        (UpdateRunnerStatusToFailedForIds s t1 t2 msg actor
          ((GetPreviousQueuedRunners s N P).1.map (fun r => r.Id))).1 N P
      = ([], none) := by
  have hw := failForIds_workflows s t1 t2 msg actor
    ((GetPreviousQueuedRunners s N P).1.map (fun r => r.Id))
  have hr := failForIds_runners s t1 t2 msg actor
    ((GetPreviousQueuedRunners s N P).1.map (fun r => r.Id))
  generalize (UpdateRunnerStatusToFailedForIds s t1 t2 msg actor
    ((GetPreviousQueuedRunners s N P).1.map (fun r => r.Id))).1 = s1 at hw hr
  simp only [GetPreviousQueuedRunners, Prod.mk.injEq, and_true] at hr ⊢
  rw [List.filter_eq_nil_iff, hr]
  intro x hx
  obtain ⟨r, hrmem, rfl⟩ := List.mem_map.mp hx
  by_cases hid : r.Id ∈ List.map (fun r => r.Id)
      (List.filter (fun r => decide (r.WorkflowType = CD_WORKFLOW_TYPE_DEPLOY)
        && runnerInPipeline s r P && decide (r.Id < N) && decide (r.Status = WorkflowInQueue))
        s.runners)
  · rw [if_pos hid]
    have := failedRow_status_ne_queued r t1 t2 msg actor
    simp [this]
  · rw [if_neg hid]
    intro hq
    apply hid
    refine List.mem_map.mpr ⟨r, List.mem_filter.mpr ⟨hrmem, ?_⟩, rfl⟩
    rw [← hq]
    simp only [runnerInPipeline, hw]

/-- C10: for every id list, in particular every non-empty one,
`UpdateRunnerStatusToFailedForIds` leaves every runner whose id is in the list with
status `Failed`, finishedOn equal to the time read by the call, the given message and the
given actor as `UpdatedBy`, whatever its status was; every such runner of the old store
is still there under its id, and no error is reported. -/
theorem UpdateRunnerStatusToFailedForIds_sets (s : Store) (t1 t2 : Int) (msg : String)
    (actor : Int) (ids : List Int) :
    (∀ r ∈ (UpdateRunnerStatusToFailedForIds s t1 t2 msg actor ids).1.runners, r.Id ∈ ids →
        r.Status = "Failed" ∧ r.FinishedOn = t1 ∧ r.Message = msg ∧ r.UpdatedBy = actor)
      ∧ (∀ r ∈ s.runners, r.Id ∈ ids →
          failedRow r t1 t2 msg actor ∈
            (UpdateRunnerStatusToFailedForIds s t1 t2 msg actor ids).1.runners
          ∧ (failedRow r t1 t2 msg actor).Id = r.Id)
      ∧ (UpdateRunnerStatusToFailedForIds s t1 t2 msg actor ids).2 = none := by
  refine ⟨?_, ?_, ?_⟩
  · intro x hx hxid
    rw [failForIds_runners] at hx
    obtain ⟨r, _, rfl⟩ := List.mem_map.mp hx
    by_cases hid : r.Id ∈ ids
    · simp [hid, failedRow, WorkflowFailed]
    · rw [if_neg hid] at hxid
      exact absurd hxid hid
  · intro r hr hid
    rw [failForIds_runners]
    refine ⟨List.mem_map.mpr ⟨r, hr, ?_⟩, rfl⟩
    rw [if_pos hid]
  · unfold UpdateRunnerStatusToFailedForIds
    split <;> rfl

/-! ## The supersede drain -/

/-- C4, as stated, fails on the scenario of the claim: after the drain that follows the
insert of runner 3, runners 1 and 2 carry the message of `ErrorDeploymentSuperseded`,
which is not the text "a new deployment was initiated before this one completed". -/
theorem supersede_message_differs :
    ¬ (∀ r ∈ (UpdateRunnerStatusToFailedForIds supersedeScenario 50 51
            ErrorDeploymentSuperseded 9
            ((GetPreviousQueuedRunners supersedeScenario 3 7).1.map (fun r => r.Id))).1.runners,
          r.Id < 3 →
          r.Status = "Failed" ∧
            r.Message = "a new deployment was initiated before this one completed") := by
  intro h
  have h1 := h (failedRow (exampleRunner 1 1 "DEPLOY" "Queued" "") 50 51
    ErrorDeploymentSuperseded 9) (by decide) (by decide)
  revert h1
  decide

/-- C4, amended: failing the runners returned by `GetPreviousQueuedRunners(N, P)` through
`UpdateRunnerStatusToFailedForIds` with the message of `ErrorDeploymentSuperseded` turns
every Queued Deploy runner of `P` with id below `N` into the same row with status
`Failed` and the message "A new deployment was initiated before this deployment
completed!"; every row stored afterwards under the id of such a runner is Failed with
that message; the rows of id `N` are the same before and after. -/
theorem supersede_drain (s : Store) (N P t1 t2 actor : Int) :
    (∀ r ∈ s.runners, r.WorkflowType = CD_WORKFLOW_TYPE_DEPLOY → runnerInPipeline s r P = true →
        r.Id < N → r.Status = "Queued" →
        failedRow r t1 t2 "A new deployment was initiated before this deployment completed!"
            actor ∈
          (UpdateRunnerStatusToFailedForIds s t1 t2 ErrorDeploymentSuperseded actor
            ((GetPreviousQueuedRunners s N P).1.map (fun r => r.Id))).1.runners)
      ∧ (∀ r ∈ s.runners, r.WorkflowType = CD_WORKFLOW_TYPE_DEPLOY →
          runnerInPipeline s r P = true → r.Id < N → r.Status = "Queued" →
          ∀ x ∈ (UpdateRunnerStatusToFailedForIds s t1 t2 ErrorDeploymentSuperseded actor
              ((GetPreviousQueuedRunners s N P).1.map (fun r => r.Id))).1.runners,
            x.Id = r.Id →
            x.Status = "Failed" ∧
              x.Message = "A new deployment was initiated before this deployment completed!")
      ∧ (∀ r, r.Id = N →
          (r ∈ (UpdateRunnerStatusToFailedForIds s t1 t2 ErrorDeploymentSuperseded actor
              ((GetPreviousQueuedRunners s N P).1.map (fun r => r.Id))).1.runners
            ↔ r ∈ s.runners)) := by
  have hmem : ∀ r ∈ s.runners, r.WorkflowType = CD_WORKFLOW_TYPE_DEPLOY →
      runnerInPipeline s r P = true → r.Id < N → r.Status = "Queued" →
      r.Id ∈ (GetPreviousQueuedRunners s N P).1.map (fun r => r.Id) := by
    intro r hr hty hin hlt hst
    refine List.mem_map.mpr ⟨r, ?_, rfl⟩
    simp only [GetPreviousQueuedRunners, List.mem_filter, Bool.and_eq_true, decide_eq_true_eq]
    exact ⟨hr, ⟨⟨hty, hin⟩, hlt⟩, hst⟩
  have hlt : ∀ i ∈ (GetPreviousQueuedRunners s N P).1.map (fun r => r.Id), i < N := by
    intro i hi
    obtain ⟨r, hr, rfl⟩ := List.mem_map.mp hi
    simp only [GetPreviousQueuedRunners, List.mem_filter, Bool.and_eq_true,
      decide_eq_true_eq] at hr
    exact hr.2.1.2
  refine ⟨?_, ?_, ?_⟩
  · intro r hr hty hin hl hst
    rw [failForIds_runners]
    refine List.mem_map.mpr ⟨r, hr, ?_⟩
    rw [if_pos (hmem r hr hty hin hl hst)]
    rfl
  · intro r hr hty hin hl hst x hx hxid
    rw [failForIds_runners] at hx
    obtain ⟨y, _, rfl⟩ := List.mem_map.mp hx
    by_cases hy : y.Id ∈ (GetPreviousQueuedRunners s N P).1.map (fun r => r.Id)
    · rw [if_pos hy]
      exact ⟨rfl, rfl⟩
    · rw [if_neg hy] at hxid
      rw [hxid] at hy
      exact absurd (hmem r hr hty hin hl hst) hy
  · intro r hN
    have hnot : r.Id ∉ (GetPreviousQueuedRunners s N P).1.map (fun r => r.Id) := by
      intro hc
      have := hlt _ hc
      omega
    rw [failForIds_runners]
    constructor
    · intro hx
      obtain ⟨y, hy, hyr⟩ := List.mem_map.mp hx
      by_cases hyid : y.Id ∈ (GetPreviousQueuedRunners s N P).1.map (fun r => r.Id)
      · rw [if_pos hyid] at hyr
        have : r.Id = y.Id := by rw [← hyr]; rfl
        rw [this] at hnot
        exact absurd hyid hnot
      · rw [if_neg hyid] at hyr
        rw [← hyr]
        exact hy
    · intro hr
      refine List.mem_map.mpr ⟨r, hr, ?_⟩
      rw [if_neg hnot]

/-! ## Updating a runner -/

theorem GetTruncatedMessage_data (message : String) (maxLength : Nat) :
    (GetTruncatedMessage message maxLength).data = message.data.take maxLength := by
  unfold GetTruncatedMessage
  split
  · rfl
  · rename_i h
    have hle : message.data.length ≤ maxLength := by
      have : message.length = message.data.length := rfl
      omega
    rw [List.take_of_length_le hle]

theorem GetTruncatedMessage_length (message : String) (maxLength : Nat) :
    (GetTruncatedMessage message maxLength).length = min message.length maxLength := by
  have h := GetTruncatedMessage_data message maxLength
  have h1 : (GetTruncatedMessage message maxLength).length
      = (GetTruncatedMessage message maxLength).data.length := rfl
  have h2 : message.length = message.data.length := rfl
  rw [h1, h, List.length_take, h2, Nat.min_comm]

theorem dbUpdateRunner_runners (s : Store) (wfr : CdWorkflowRunner)
    (hex : ∃ r ∈ s.runners, r.Id = wfr.Id) :
    (dbUpdateRunner s wfr).1.runners =
      s.runners.map (fun r => if r.Id = wfr.Id then wfr else r) := by
  obtain ⟨r, hr, hid⟩ := hex
  have hpos : (s.runners.filter (fun r => decide (r.Id = wfr.Id))).length ≠ 0 := by
    intro h0
    have hnil := List.length_eq_zero.mp h0
    have : r ∈ s.runners.filter (fun r => decide (r.Id = wfr.Id)) :=
      List.mem_filter.mpr ⟨hr, by simp [hid]⟩
    rw [hnil] at this
    exact absurd this (List.not_mem_nil _)
  unfold dbUpdateRunner
  split
  · rename_i h0
    exact absurd h0 hpos
  · rfl
  · rfl

theorem dbUpdateRunner_absent (s : Store) (wfr : CdWorkflowRunner)
    (habs : ∀ r ∈ s.runners, r.Id ≠ wfr.Id) :
    dbUpdateRunner s wfr = (s, some PgError.ErrNoRows) := by
  have h0 : s.runners.filter (fun r => decide (r.Id = wfr.Id)) = [] := by
    rw [List.filter_eq_nil_iff]
    intro r hr
    simp [habs r hr]
  unfold dbUpdateRunner
  rw [h0]
  rfl

/-- C7: when a row of id `wfr.Id` exists, `UpdateWorkFlowRunner` leaves under that id
the supplied row with only its message replaced by the first `min (length m) 1000`
characters of the message `m`; a 5000-character message is stored as its first 1000
characters, a message of at most 1000 characters unchanged; rows of other ids are kept,
and no error is reported when the id names one row. -/
theorem UpdateWorkFlowRunner_persists (s : Store) (wfr : CdWorkflowRunner)
    (hex : ∃ r ∈ s.runners, r.Id = wfr.Id) :
    (∃ x ∈ (UpdateWorkFlowRunner s wfr).1.runners, x.Id = wfr.Id)
      ∧ (∀ x ∈ (UpdateWorkFlowRunner s wfr).1.runners, x.Id = wfr.Id →
          x = { wfr with Message := String.mk (wfr.Message.data.take 1000) }
          ∧ x.Message.data = wfr.Message.data.take (min wfr.Message.length 1000)
          ∧ x.Message.length = min wfr.Message.length 1000
          ∧ (wfr.Message.length = 5000 → x.Message.length = 1000)
          ∧ (wfr.Message.length ≤ 1000 → x = wfr))
      ∧ (∀ x ∈ (UpdateWorkFlowRunner s wfr).1.runners, x.Id ≠ wfr.Id → x ∈ s.runners)
      ∧ ((s.runners.filter (fun r => decide (r.Id = wfr.Id))).length = 1 →
          (UpdateWorkFlowRunner s wfr).2 = none) := by
  have hrun : (UpdateWorkFlowRunner s wfr).1.runners =
      s.runners.map (fun r => if r.Id = wfr.Id then
        { wfr with Message := GetTruncatedMessage wfr.Message 1000 } else r) := by
    unfold UpdateWorkFlowRunner
    exact dbUpdateRunner_runners s { wfr with Message := GetTruncatedMessage wfr.Message 1000 } hex
  have hmsg : GetTruncatedMessage wfr.Message 1000 = String.mk (wfr.Message.data.take 1000) := by
    have := GetTruncatedMessage_data wfr.Message 1000
    cases hg : GetTruncatedMessage wfr.Message 1000 with
    | mk d => rw [hg] at this; simp only at this; rw [this]
  refine ⟨?_, ?_, ?_, ?_⟩
  · obtain ⟨r, hr, hid⟩ := hex
    rw [hrun]
    refine ⟨_, List.mem_map.mpr ⟨r, hr, rfl⟩, ?_⟩
    rw [if_pos hid]
  · intro x hx hxid
    rw [hrun] at hx
    obtain ⟨r, _, rfl⟩ := List.mem_map.mp hx
    by_cases hid : r.Id = wfr.Id
    · rw [if_pos hid, hmsg]
      have hlen : (String.mk (wfr.Message.data.take 1000)).length = min wfr.Message.length 1000 := by
        rw [← hmsg]; exact GetTruncatedMessage_length _ _
      refine ⟨rfl, ?_, hlen, ?_, ?_⟩
      · show List.take 1000 wfr.Message.data = _
        have h2 : wfr.Message.length = wfr.Message.data.length := rfl
        rw [h2]
        rcases Nat.le_total wfr.Message.data.length 1000 with h | h
        · rw [Nat.min_eq_left h, List.take_of_length_le h, List.take_of_length_le (le_refl _)]
        · rw [Nat.min_eq_right h]
      · intro h5
        show (String.mk (wfr.Message.data.take 1000)).length = 1000
        rw [hlen, h5]; rfl
      · intro hle
        have hle2 : wfr.Message.data.length ≤ 1000 := hle
        rw [List.take_of_length_le hle2]
    · rw [if_neg hid] at hxid
      exact absurd hxid hid
  · intro x hx hxid
    rw [hrun] at hx
    obtain ⟨r, hr, rfl⟩ := List.mem_map.mp hx
    by_cases hid : r.Id = wfr.Id
    · rw [if_pos hid] at hxid
      exact absurd rfl hxid
    · rw [if_neg hid]
      exact hr
  · intro h1
    unfold UpdateWorkFlowRunner dbUpdateRunner
    simp only
    rw [h1]

/-- C7, at an instance: updating runner 2 of the supersede scenario. -/
theorem UpdateWorkFlowRunner_persists_witness :
    (∃ r ∈ supersedeScenario.runners, r.Id = 2)
      ∧ (∃ x ∈ (UpdateWorkFlowRunner supersedeScenario
          (exampleRunner 2 1 "DEPLOY" "Progressing" "rollout")).1.runners, x.Id = 2)
      ∧ (∀ x ∈ (UpdateWorkFlowRunner supersedeScenario
          (exampleRunner 2 1 "DEPLOY" "Progressing" "rollout")).1.runners, x.Id = 2 →
          x = exampleRunner 2 1 "DEPLOY" "Progressing" "rollout") :=
  ⟨⟨exampleRunner 2 1 "DEPLOY" "Queued" "", by decide, by decide⟩,
    (UpdateWorkFlowRunner_persists supersedeScenario
      (exampleRunner 2 1 "DEPLOY" "Progressing" "rollout")
      ⟨exampleRunner 2 1 "DEPLOY" "Queued" "", by decide, by decide⟩).1,
    fun x hx hid => ((UpdateWorkFlowRunner_persists supersedeScenario
      (exampleRunner 2 1 "DEPLOY" "Progressing" "rollout")
      ⟨exampleRunner 2 1 "DEPLOY" "Queued" "", by decide, by decide⟩).2.1 x hx hid).2.2.2.2
        (by decide)⟩

/-- C8: when no row has the id of `wfr`, `UpdateWorkFlowRunner` fails with `ErrNoRows`
(not found) and the store is the one it was given. -/
theorem UpdateWorkFlowRunner_absent (s : Store) (wfr : CdWorkflowRunner)
    (habs : ∀ r ∈ s.runners, r.Id ≠ wfr.Id) :
    UpdateWorkFlowRunner s wfr = (s, some PgError.ErrNoRows) := by
  unfold UpdateWorkFlowRunner
  exact dbUpdateRunner_absent s _ habs

/-- C8, at an instance: runner 4 is not in the supersede scenario. -/
theorem UpdateWorkFlowRunner_absent_witness :
    (∀ r ∈ supersedeScenario.runners, r.Id ≠ 4) ∧
      UpdateWorkFlowRunner supersedeScenario (exampleRunner 4 1 "DEPLOY" "Failed" "late")
        = (supersedeScenario, some PgError.ErrNoRows) :=
  ⟨by decide, UpdateWorkFlowRunner_absent supersedeScenario
    (exampleRunner 4 1 "DEPLOY" "Failed" "late") (by decide)⟩

/-! ## The message bound on the other write paths -/

theorem longMessage_length : longMessage.length = 1001 := by
  show (List.replicate 1001 'x').length = 1001
  exact List.length_replicate 1001 'x'

/-- C9, at the failing inputs: `SaveWorkFlowRunner`, `UpdateWorkFlowRunners` and
`UpdateRunnerStatusToFailedForIds` store a 1001-character message as it is, so a
persisted message can exceed 1000 characters. -/
theorem message_bound_not_kept :
    (∃ r ∈ (SaveWorkFlowRunner (SaveWorkFlow emptyStore (exampleWorkflow 0 7)).1
          (exampleRunner 0 1 "DEPLOY" "Queued" longMessage)).1.runners,
        r.Message.length = 1001)
      ∧ (∃ r ∈ (UpdateWorkFlowRunners supersedeScenario
          [exampleRunner 2 1 "DEPLOY" "Failed" longMessage]).1.runners,
        r.Message.length = 1001)
      ∧ (∃ r ∈ (UpdateRunnerStatusToFailedForIds supersedeScenario 50 51 longMessage 9
          [1]).1.runners,
        r.Message.length = 1001) := by
  refine ⟨?_, ?_, ?_⟩
  · refine ⟨{ exampleRunner 0 1 "DEPLOY" "Queued" longMessage with Id := 1 }, ?_,
      longMessage_length⟩
    simp [SaveWorkFlowRunner, SaveWorkFlow, emptyStore, nextId, exampleWorkflow, exampleRunner]
  · refine ⟨exampleRunner 2 1 "DEPLOY" "Failed" longMessage, ?_, longMessage_length⟩
    simp [UpdateWorkFlowRunners, dbUpdateRunner, supersedeScenario, exampleRunner, emptyStore]
  · refine ⟨failedRow (exampleRunner 1 1 "DEPLOY" "Queued" "") 50 51 longMessage 9, ?_,
      longMessage_length⟩
    rw [failForIds_runners]
    simp [supersedeScenario, exampleRunner, emptyStore]

/-! ## At most one deployment in flight per pipeline -/

theorem twoInFlight_reachable : Reachable (fun _ => true) twoInFlight := by
  unfold twoInFlight
  apply Reachable.executorUpdate
  · apply Reachable.trigger
    · apply Reachable.executorUpdate
      · apply Reachable.trigger
        · apply Reachable.saveWorkflow
          · exact Reachable.empty
          · rfl
        · rfl
        · rfl
        · decide
        · decide
      · decide
      · rfl
    · rfl
    · rfl
    · decide
    · decide
  · decide
  · rfl

/-- C5, as stated, fails: the store `twoInFlight` is reached by the steps of the claim
and pipeline 7 has two Deploy-stage runners in status Progressing there, a status that
is neither terminal nor Queued. -/
theorem single_active_fails :
    ¬ (∀ s : Store, Reachable (fun _ => true) s →
        ∀ P : Int, (activeDeployRunners s P).length ≤ 1) := by
  intro h
  have h2 := h twoInFlight twoInFlight_reachable 7
  revert h2
  decide

theorem foldl_max_bounds (l : List Int) :
    ∀ a : Int, a ≤ l.foldl max a ∧ ∀ i ∈ l, i ≤ l.foldl max a := by
  induction l with
  | nil => intro a; simp
  | cons x l ih =>
    intro a
    obtain ⟨h1, h2⟩ := ih (max a x)
    refine ⟨le_trans (le_max_left a x) h1, ?_⟩
    intro i hi
    rcases List.mem_cons.mp hi with h | h
    · rw [h]; exact le_trans (le_max_right a x) h1
    · exact h2 i h

theorem lt_nextId (ids : List Int) : ∀ i ∈ ids, i < nextId ids := by
  intro i hi
  have := (foldl_max_bounds ids 0).2 i hi
  unfold nextId
  omega

theorem filter_map_length_le {α : Type} (p q : α → Bool) (f : α → α) (l : List α)
    (h : ∀ x ∈ l, q (f x) = true → p x = true) :
    ((l.map f).filter q).length ≤ (l.filter p).length := by
  induction l with
  | nil => simp
  | cons x l ih =>
    have ih2 := ih (fun y hy => h y (List.mem_cons_of_mem x hy))
    have hx := h x (List.mem_cons_self x l)
    simp only [List.map_cons, List.filter_cons]
    by_cases hq : q (f x) = true
    · rw [if_pos hq, if_pos (hx hq)]
      simp only [List.length_cons]
      omega
    · rw [if_neg hq]
      split
      · simp only [List.length_cons]
        omega
      · exact ih2

theorem queuedDeployRunners_eq (s : Store) (P : Int) :
    queuedDeployRunners s P =
      s.runners.filter (fun r => (r.Status == WorkflowInQueue) &&
        (decide (r.WorkflowType = CD_WORKFLOW_TYPE_DEPLOY) && runnerInPipeline s r P)) := by
  unfold queuedDeployRunners deployRunnersOf
  rw [List.filter_filter]

theorem dbUpdateRunner_workflows (s : Store) (wfr : CdWorkflowRunner) :
    (dbUpdateRunner s wfr).1.workflows = s.workflows := by
  unfold dbUpdateRunner
  split <;> rfl

theorem SaveWorkFlow_of_zero (s : Store) (wf : CdWorkflow) (hzero : wf.Id = 0) :
    SaveWorkFlow s wf =
      ({ s with workflows :=
            s.workflows ++ [{ wf with Id := nextId (s.workflows.map (fun w => w.Id)) }] },
        { wf with Id := nextId (s.workflows.map (fun w => w.Id)) }, none) := by
  unfold SaveWorkFlow
  rw [if_pos hzero]

theorem triggerDeploy_eq (s : Store) (t1 t2 P : Int) (wfr : CdWorkflowRunner) (actor : Int)
    (hzero : wfr.Id = 0) (hin : runnerInPipeline s wfr P = true) :
    triggerDeploy s t1 t2 P wfr actor =
      (UpdateRunnerStatusToFailedForIds
        { s with runners := s.runners ++ [{ wfr with Id := nextId (s.runners.map (fun r => r.Id)) }] }
        t1 t2 ErrorDeploymentSuperseded actor
        ((GetPreviousQueuedRunners
          { s with runners := s.runners ++ [{ wfr with Id := nextId (s.runners.map (fun r => r.Id)) }] }
          (nextId (s.runners.map (fun r => r.Id))) P).1.map (fun r => r.Id))).1 := by
  have hfk : s.workflows.any (fun wf => decide (wf.Id = wfr.CdWorkflowId)) = true := by
    obtain ⟨wf, hwf, hid, _⟩ := (runnerInPipeline_iff s wfr P).mp hin
    exact List.any_eq_true.mpr ⟨wf, hwf, by simp [hid]⟩
  unfold triggerDeploy SaveWorkFlowRunner
  rw [if_pos hfk, if_pos hzero]

theorem executorStatusUpdate_eq (s : Store) (r : CdWorkflowRunner)
    (status podStatus message : String) (finishedOn updatedOn : Int) :
    ∃ upd : CdWorkflowRunner, upd.Id = r.Id ∧ upd.CdWorkflowId = r.CdWorkflowId ∧
      upd.Status = status ∧
      executorStatusUpdate s r status podStatus message finishedOn updatedOn
        = (dbUpdateRunner s upd).1 :=
  ⟨{ r with Status := status, PodStatus := podStatus, FinishedOn := finishedOn,
            UpdatedOn := updatedOn, Message := GetTruncatedMessage message 1000 },
    rfl, rfl, rfl, rfl⟩

/-- The facts kept by every step: workflows of one id lie in one pipeline, every runner
names a stored workflow, and each pipeline has at most one Queued Deploy runner. -/
theorem reachable_inv (s : Store)
    (h : Reachable (fun st => !(st == WorkflowInQueue)) s) :
    (∀ w1 ∈ s.workflows, ∀ w2 ∈ s.workflows, w1.Id = w2.Id → w1.PipelineId = w2.PipelineId)
      ∧ (∀ r ∈ s.runners, ∃ wf ∈ s.workflows, wf.Id = r.CdWorkflowId)
      ∧ (∀ P : Int, (queuedDeployRunners s P).length ≤ 1) := by
  induction h with
  | empty =>
    refine ⟨?_, ?_, ?_⟩
    · intro w1 h1; exact absurd h1 (List.not_mem_nil _)
    · intro r h1; exact absurd h1 (List.not_mem_nil _)
    · intro P; simp [queuedDeployRunners, deployRunnersOf, emptyStore]
  | saveWorkflow s wf _ hzero ih =>
    obtain ⟨i1, i3, i2⟩ := ih
    have hfresh : ∀ w ∈ s.workflows, w.Id < nextId (s.workflows.map (fun w => w.Id)) :=
      fun w hw => lt_nextId _ _ (List.mem_map.mpr ⟨w, hw, rfl⟩)
    rw [SaveWorkFlow_of_zero s wf hzero]
    refine ⟨?_, ?_, ?_⟩
    · intro w1 h1 w2 h2 hid
      simp only [List.mem_append, List.mem_singleton] at h1 h2
      rcases h1 with h1 | h1 <;> rcases h2 with h2 | h2
      · exact i1 w1 h1 w2 h2 hid
      · have := hfresh w1 h1
        rw [h2] at hid
        simp only at hid
        omega
      · have := hfresh w2 h2
        rw [h1] at hid
        simp only at hid
        omega
      · rw [h1, h2]
    · intro r hr
      obtain ⟨w, hw, hid⟩ := i3 r hr
      exact ⟨w, List.mem_append_left _ hw, hid⟩
    · intro P
      have hcongr : ∀ r ∈ s.runners,
          runnerInPipeline
              { s with workflows :=
                s.workflows ++ [{ wf with Id := nextId (s.workflows.map (fun w => w.Id)) }] }
              r P
            = runnerInPipeline s r P := by
        intro r hr
        obtain ⟨w, hw, hid⟩ := i3 r hr
        have hlt := hfresh w hw
        have hne : ¬ nextId (s.workflows.map (fun w => w.Id)) = r.CdWorkflowId := by omega
        simp [runnerInPipeline, List.any_append, hne]
      have := i2 P
      rw [queuedDeployRunners_eq] at this ⊢
      simp only
      rw [List.filter_congr (fun r hr => by rw [hcongr r hr])]
      exact this
  | trigger s t1 t2 P wfr actor _ hty hzero _ hin ih =>
    obtain ⟨i1, i3, i2⟩ := ih
    rw [triggerDeploy_eq s t1 t2 P wfr actor hzero hin]
    have hfresh : ∀ r ∈ s.runners, r.Id < nextId (s.runners.map (fun r => r.Id)) :=
      fun r hr => lt_nextId _ _ (List.mem_map.mpr ⟨r, hr, rfl⟩)
    generalize hN : nextId (s.runners.map (fun r => r.Id)) = N at hfresh
    generalize hids : (GetPreviousQueuedRunners
        { s with runners := s.runners ++ [{ wfr with Id := N }] } N P).1.map (fun r => r.Id)
      = ids
    have hidslt : ∀ i ∈ ids, i < N := by
      intro i hi
      rw [← hids] at hi
      obtain ⟨r, hr, rfl⟩ := List.mem_map.mp hi
      simp only [GetPreviousQueuedRunners, List.mem_filter, Bool.and_eq_true,
        decide_eq_true_eq] at hr
      exact hr.2.1.2
    have hidsmem : ∀ r ∈ s.runners, r.WorkflowType = CD_WORKFLOW_TYPE_DEPLOY →
        runnerInPipeline s r P = true → r.Status = WorkflowInQueue → r.Id ∈ ids := by
      intro r hr h1 h2 h3
      rw [← hids]
      refine List.mem_map.mpr ⟨r, ?_, rfl⟩
      simp only [GetPreviousQueuedRunners, List.mem_filter, List.mem_append, Bool.and_eq_true,
        decide_eq_true_eq]
      exact ⟨Or.inl hr, ⟨⟨h1, h2⟩, hfresh r hr⟩, h3⟩
    have hw := failForIds_workflows { s with runners := s.runners ++ [{ wfr with Id := N }] }
      t1 t2 ErrorDeploymentSuperseded actor ids
    have hr := failForIds_runners { s with runners := s.runners ++ [{ wfr with Id := N }] }
      t1 t2 ErrorDeploymentSuperseded actor ids
    generalize (UpdateRunnerStatusToFailedForIds
      { s with runners := s.runners ++ [{ wfr with Id := N }] }
      t1 t2 ErrorDeploymentSuperseded actor ids).1 = s2 at hw hr
    simp only at hw hr
    have hnew : ¬ N ∈ ids := fun hc => lt_irrefl N (hidslt N hc)
    rw [List.map_append, List.map_singleton] at hr
    simp only [hnew, if_false] at hr
    refine ⟨?_, ?_, ?_⟩
    · rw [hw]; exact i1
    · intro r hrm
      rw [hr] at hrm
      rw [hw]
      rcases List.mem_append.mp hrm with hrm | hrm
      · obtain ⟨y, hy, rfl⟩ := List.mem_map.mp hrm
        obtain ⟨w, hwm, hid⟩ := i3 y hy
        refine ⟨w, hwm, ?_⟩
        rw [hid]
        split <;> rfl
      · rw [List.mem_singleton.mp hrm]
        obtain ⟨w, hwm, hid, _⟩ := (runnerInPipeline_iff s wfr P).mp hin
        exact ⟨w, hwm, hid⟩
    · intro P1
      rw [queuedDeployRunners_eq, hr, List.filter_append, List.length_append]
      have hpip : ∀ x : CdWorkflowRunner, runnerInPipeline s2 x P1 = runnerInPipeline s x P1 :=
        fun x => runnerInPipeline_congr s s2 x x P1 hw rfl
      have hold := i2 P1
      rw [queuedDeployRunners_eq] at hold
      have hle := filter_map_length_le
        (fun r => (r.Status == WorkflowInQueue) &&
          (decide (r.WorkflowType = CD_WORKFLOW_TYPE_DEPLOY) && runnerInPipeline s r P1))
        (fun r => (r.Status == WorkflowInQueue) &&
          (decide (r.WorkflowType = CD_WORKFLOW_TYPE_DEPLOY) && runnerInPipeline s2 r P1))
        (fun r => if r.Id ∈ ids then failedRow r t1 t2 ErrorDeploymentSuperseded actor else r)
        s.runners (by
          intro x _ hq
          by_cases hx : x.Id ∈ ids
          · simp only [hx, if_true] at hq
            have := failedRow_status_ne_queued x t1 t2 ErrorDeploymentSuperseded actor
            simp [this] at hq
          · simp only [hx, if_false, hpip] at hq
            exact hq)
      by_cases hP : P1 = P
      · subst hP
        have hzero : (List.filter (fun r => (r.Status == WorkflowInQueue) &&
            (decide (r.WorkflowType = CD_WORKFLOW_TYPE_DEPLOY) && runnerInPipeline s2 r P1))
            (List.map (fun r => if r.Id ∈ ids then
              failedRow r t1 t2 ErrorDeploymentSuperseded actor else r) s.runners)) = [] := by
          rw [List.filter_eq_nil_iff]
          intro x hx
          obtain ⟨y, hy, rfl⟩ := List.mem_map.mp hx
          by_cases hyid : y.Id ∈ ids
          · simp only [hyid, if_true]
            have := failedRow_status_ne_queued y t1 t2 ErrorDeploymentSuperseded actor
            simp [this]
          · simp only [hyid, if_false, hpip]
            intro hq
            simp only [Bool.and_eq_true, beq_iff_eq, decide_eq_true_eq] at hq
            exact hyid (hidsmem y hy hq.2.1 hq.2.2 hq.1)
        rw [hzero]
        simp only [List.length_nil, Nat.zero_add]
        exact le_trans (List.length_filter_le _ _) (by simp)
      · have hnone : (List.filter (fun r => (r.Status == WorkflowInQueue) &&
            (decide (r.WorkflowType = CD_WORKFLOW_TYPE_DEPLOY) && runnerInPipeline s2 r P1))
            [{ wfr with Id := N }]) = [] := by
          rw [List.filter_eq_nil_iff]
          intro x hx
          rw [List.mem_singleton.mp hx, hpip]
          intro hq
          simp only [Bool.and_eq_true, beq_iff_eq, decide_eq_true_eq] at hq
          obtain ⟨w1, hw1, hid1, hp1⟩ := (runnerInPipeline_iff s _ P1).mp hq.2.2
          obtain ⟨w2, hw2, hid2, hp2⟩ := (runnerInPipeline_iff s wfr P).mp hin
          have := i1 w1 hw1 w2 hw2 (by rw [hid1, hid2])
          exact hP (by rw [← hp1, ← hp2, this])
        rw [hnone]
        simp only [List.length_nil, Nat.add_zero]
        exact le_trans hle hold
  | executorUpdate s r status podStatus message finishedOn updatedOn _ hmem hallowed ih =>
    obtain ⟨i1, i3, i2⟩ := ih
    have hst : ¬ status = WorkflowInQueue := by
      intro hc
      rw [hc] at hallowed
      simp at hallowed
    obtain ⟨upd, hupdId, hupdWf, hupdSt, heq⟩ :=
      executorStatusUpdate_eq s r status podStatus message finishedOn updatedOn
    rw [heq]
    have hw := dbUpdateRunner_workflows s upd
    have hr := dbUpdateRunner_runners s upd ⟨r, hmem, hupdId.symm⟩
    generalize (dbUpdateRunner s upd).1 = s2 at hw hr
    refine ⟨?_, ?_, ?_⟩
    · rw [hw]; exact i1
    · intro x hx
      rw [hr] at hx
      rw [hw]
      obtain ⟨y, hy, rfl⟩ := List.mem_map.mp hx
      split
      · rw [hupdWf]; exact i3 r hmem
      · exact i3 y hy
    · intro P1
      have hold := i2 P1
      rw [queuedDeployRunners_eq] at hold ⊢
      rw [hr]
      refine le_trans (filter_map_length_le
        (fun r => (r.Status == WorkflowInQueue) &&
          (decide (r.WorkflowType = CD_WORKFLOW_TYPE_DEPLOY) && runnerInPipeline s r P1))
        _ _ s.runners ?_) hold
      intro x _ hq
      by_cases hx : x.Id = upd.Id
      · simp only [hx, if_true, hupdSt] at hq
        simp [hst] at hq
      · simp only [hx, if_false] at hq
        rw [runnerInPipeline_congr s s2 x x P1 hw rfl] at hq
        exact hq

/-- C5, amended: in every store reachable from the empty store by creating workflows,
by Deploy triggers (insert the runner as a new row, whose id the database assigns, for a
pipeline of non-zero id, then fail the runners returned by `GetPreviousQueuedRunners`
for it) and by executor status updates that report a status other than `Queued`, each
pipeline has at most one Deploy-stage runner whose status is `Queued`. -/
theorem at_most_one_queued (s : Store)
    (h : Reachable (fun st => !(st == WorkflowInQueue)) s) (P : Int) :
    (queuedDeployRunners s P).length ≤ 1 :=
  (reachable_inv s h).2.2 P

theorem queuedThenSuperseded_reachable :
    Reachable (fun st => !(st == WorkflowInQueue)) queuedThenSuperseded := by
  unfold queuedThenSuperseded
  apply Reachable.trigger
  · apply Reachable.trigger
    · apply Reachable.saveWorkflow
      · exact Reachable.empty
      · rfl
    · rfl
    · rfl
    · decide
    · decide
  · rfl
  · rfl
  · decide
  · decide

/-- C5, amended, at an instance: after two Deploy triggers on pipeline 7 the second
runner is the one Queued runner. -/
theorem at_most_one_queued_witness :
    Reachable (fun st => !(st == WorkflowInQueue)) queuedThenSuperseded
      ∧ (queuedDeployRunners queuedThenSuperseded 7).length ≤ 1
      ∧ (queuedDeployRunners queuedThenSuperseded 7).map (fun r => r.Id) = [2] :=
  ⟨queuedThenSuperseded_reachable,
    at_most_one_queued queuedThenSuperseded queuedThenSuperseded_reachable 7, by decide⟩

/-- The scenario of the supersede contract, evaluated: after the drain for runner 3,
runners 1 and 2 are the failed rows with the message of `ErrorDeploymentSuperseded` and
runner 3 is as inserted. -/
theorem supersedeScenario_drained :
    (UpdateRunnerStatusToFailedForIds supersedeScenario 50 51 ErrorDeploymentSuperseded 9
        ((GetPreviousQueuedRunners supersedeScenario 3 7).1.map (fun r => r.Id))).1.runners
      = [failedRow (exampleRunner 1 1 "DEPLOY" "Queued" "") 50 51
            "A new deployment was initiated before this deployment completed!" 9,
          failedRow (exampleRunner 2 1 "DEPLOY" "Queued" "") 50 51
            "A new deployment was initiated before this deployment completed!" 9,
          exampleRunner 3 1 "DEPLOY" "Queued" ""] := by
  decide

/-! ## Empty id list and frame of `UpdateRunnerStatusToFailedForIds` -/

/-- C11: with an empty id list `UpdateRunnerStatusToFailedForIds` returns no error and
the store it was given, whatever the message, the actor and the clock. -/
theorem UpdateRunnerStatusToFailedForIds_nil (s : Store) (t1 t2 : Int) (msg : String)
    (actor : Int) :
    UpdateRunnerStatusToFailedForIds s t1 t2 msg actor [] = (s, none) := by
  rfl

/-- C19: `UpdateRunnerStatusToFailedForIds` keeps the number and order of the runner
rows; a row whose id is not in the list is unchanged; a row whose id is in the list
changes at most in status, finishedOn, message, updatedOn and updatedBy, so its id,
triggeredBy, startedOn, workflow id, stage type and predecessor pointer are kept; the
other tables are unchanged. -/
theorem UpdateRunnerStatusToFailedForIds_frame (s : Store) (t1 t2 : Int) (msg : String)
    (actor : Int) (ids : List Int) :
    (UpdateRunnerStatusToFailedForIds s t1 t2 msg actor ids).1.runners.length = s.runners.length
      ∧ List.Forall₂
          (fun old new : CdWorkflowRunner =>
            (old.Id ∉ ids → new = old)
              ∧ ({ new with Status := old.Status, FinishedOn := old.FinishedOn,
                            Message := old.Message, UpdatedOn := old.UpdatedOn,
                            UpdatedBy := old.UpdatedBy } = old)
              ∧ new.Id = old.Id ∧ new.TriggeredBy = old.TriggeredBy
              ∧ new.StartedOn = old.StartedOn ∧ new.CdWorkflowId = old.CdWorkflowId
              ∧ new.WorkflowType = old.WorkflowType
              ∧ new.RefCdWorkflowRunnerId = old.RefCdWorkflowRunnerId)
          s.runners (UpdateRunnerStatusToFailedForIds s t1 t2 msg actor ids).1.runners
      ∧ (UpdateRunnerStatusToFailedForIds s t1 t2 msg actor ids).1.workflows = s.workflows
      ∧ (UpdateRunnerStatusToFailedForIds s t1 t2 msg actor ids).1.pipelines = s.pipelines
      ∧ (UpdateRunnerStatusToFailedForIds s t1 t2 msg actor ids).1.environments
          = s.environments
      ∧ (UpdateRunnerStatusToFailedForIds s t1 t2 msg actor ids).1.deploymentConfigs
          = s.deploymentConfigs := by
  refine ⟨?_, ?_, failForIds_workflows s t1 t2 msg actor ids, ?_, ?_, ?_⟩
  · rw [failForIds_runners, List.length_map]
  · rw [failForIds_runners, List.forall₂_map_right_iff, List.forall₂_same]
    intro x _
    by_cases hx : x.Id ∈ ids
    · rw [if_pos hx]
      exact ⟨fun h => absurd hx h, rfl, rfl, rfl, rfl, rfl, rfl, rfl⟩
    · rw [if_neg hx]
      exact ⟨fun _ => rfl, rfl, rfl, rfl, rfl, rfl, rfl, rfl⟩
  · unfold UpdateRunnerStatusToFailedForIds
    split <;> rfl
  · unfold UpdateRunnerStatusToFailedForIds
    split <;> rfl
  · unfold UpdateRunnerStatusToFailedForIds
    split <;> rfl

/-! ## Retry count -/

/-- C12: `FindRetriedWorkflowCountByReferenceId(R)` is the number of runner rows whose
`RefCdWorkflowRunnerId` equals `R`: it is 0 when there is no such row (whether or not a
runner of id `R` exists), a further row counts for one exactly when it points to `R`,
and no error is reported. -/
theorem FindRetriedWorkflowCountByReferenceId_count (s : Store) (R : Int) :
    (FindRetriedWorkflowCountByReferenceId s R).1
        = s.runners.countP (fun r => decide (r.RefCdWorkflowRunnerId = R))
      ∧ ((∀ r ∈ s.runners, r.RefCdWorkflowRunnerId ≠ R) →
          (FindRetriedWorkflowCountByReferenceId s R).1 = 0)
      ∧ ((FindRetriedWorkflowCountByReferenceId s R).1 = 0 →
          ∀ r ∈ s.runners, r.RefCdWorkflowRunnerId ≠ R)
      ∧ (∀ r : CdWorkflowRunner,
          (FindRetriedWorkflowCountByReferenceId { s with runners := r :: s.runners } R).1
            = (FindRetriedWorkflowCountByReferenceId s R).1
              + (if r.RefCdWorkflowRunnerId = R then 1 else 0))
      ∧ (FindRetriedWorkflowCountByReferenceId s R).2 = none := by
  refine ⟨?_, ?_, ?_, ?_, rfl⟩
  · simp only [FindRetriedWorkflowCountByReferenceId, List.countP_eq_length_filter]
  · intro h
    simp only [FindRetriedWorkflowCountByReferenceId, List.length_eq_zero,
      List.filter_eq_nil_iff, decide_eq_true_eq]
    exact h
  · intro h
    simp only [FindRetriedWorkflowCountByReferenceId, List.length_eq_zero,
      List.filter_eq_nil_iff, decide_eq_true_eq] at h
    exact h
  · intro r
    simp only [FindRetriedWorkflowCountByReferenceId, List.filter_cons]
    by_cases hr : r.RefCdWorkflowRunnerId = R
    · simp [hr]
    · simp [hr]

/-! ## Duplicate-trigger check -/

/-- C13: with the query answering, `CheckWorkflowRunnerByReferenceId` returns (true, no
error) exactly when some runner row carries the reference id, and (false, no error)
otherwise; when the query reports `pg.ErrNoRows` it returns (false, no error); when the
query fails with any other error it returns false together with that error. -/
theorem CheckWorkflowRunnerByReferenceId_outcomes (s : Store) (referenceId : String) :
    (CheckWorkflowRunnerByReferenceId s none referenceId = (true, none) ↔
        ∃ r ∈ s.runners, r.ReferenceId = some referenceId)
      ∧ (CheckWorkflowRunnerByReferenceId s none referenceId = (false, none) ↔
          ¬ ∃ r ∈ s.runners, r.ReferenceId = some referenceId)
      ∧ CheckWorkflowRunnerByReferenceId s (some PgError.ErrNoRows) referenceId = (false, none)
      ∧ (∀ err : PgError, err ≠ PgError.ErrNoRows →
          CheckWorkflowRunnerByReferenceId s (some err) referenceId = (false, some err))
      ∧ (∀ failure : Option PgError,
          CheckWorkflowRunnerByReferenceId s failure referenceId = (true, none) →
          failure = none ∧ ∃ r ∈ s.runners, r.ReferenceId = some referenceId) := by
  have hnone : CheckWorkflowRunnerByReferenceId s none referenceId
      = (s.runners.any (fun r => decide (r.ReferenceId = some referenceId)), none) := by
    simp [CheckWorkflowRunnerByReferenceId, queryExists]
  have hany : s.runners.any (fun r => decide (r.ReferenceId = some referenceId)) = true ↔
      ∃ r ∈ s.runners, r.ReferenceId = some referenceId := by
    simp
  have hsome : ∀ err : PgError, err ≠ PgError.ErrNoRows →
      CheckWorkflowRunnerByReferenceId s (some err) referenceId = (false, some err) := by
    intro err herr
    simp [CheckWorkflowRunnerByReferenceId, queryExists, herr]
  refine ⟨?_, ?_, ?_, hsome, ?_⟩
  · rw [hnone, ← hany]
    simp
  · rw [hnone, ← hany]
    simp
  · simp [CheckWorkflowRunnerByReferenceId, queryExists]
  · intro failure h
    cases failure with
    | none =>
      rw [hnone] at h
      refine ⟨rfl, hany.mp ?_⟩
      simpa using h
    | some err =>
      by_cases herr : err = PgError.ErrNoRows
      · subst herr
        simp [CheckWorkflowRunnerByReferenceId, queryExists] at h
      · rw [hsome err herr] at h
        simp at h

/-! ## Terminal statuses -/

/-- C15: each of "Succeeded", "Failed", "Aborted", "Hibernating", "Healthy", "Degraded"
is a member of `WfrTerminalStatusList`, and none of "Queued", "Starting", "Initiating",
"Progressing" is. -/
theorem WfrTerminalStatusList_members :
    (∀ st ∈ ["Succeeded", "Failed", "Aborted", "Hibernating", "Healthy", "Degraded"],
        st ∈ WfrTerminalStatusList)
      ∧ (∀ st ∈ ["Queued", "Starting", "Initiating", "Progressing"],
          st ∉ WfrTerminalStatusList) := by
  decide

/-! ## Idempotent trigger -/

theorem SaveWorkFlowRunner_runners_of_ok (s : Store) (wfr : CdWorkflowRunner)
    (hok : (SaveWorkFlowRunner s wfr).2.2 = none) :
    ∃ saved : CdWorkflowRunner, saved.ReferenceId = wfr.ReferenceId
      ∧ (SaveWorkFlowRunner s wfr).1.runners = s.runners ++ [saved] := by
  unfold SaveWorkFlowRunner at hok ⊢
  by_cases hfk : s.workflows.any (fun wf => decide (wf.Id = wfr.CdWorkflowId)) = true
  · rw [if_pos hfk] at hok ⊢
    by_cases hzero : wfr.Id = 0
    · rw [if_pos hzero]
      exact ⟨{ wfr with Id := nextId (s.runners.map (fun r => r.Id)) }, rfl, rfl⟩
    · rw [if_neg hzero] at hok ⊢
      by_cases hdup : s.runners.any (fun r => decide (r.Id = wfr.Id)) = true
      · rw [if_pos hdup] at hok
        simp at hok
      · rw [if_neg hdup]
        exact ⟨wfr, rfl, rfl⟩
  · rw [if_neg hfk] at hok
    simp at hok

/-- C14: from a store in which no runner carries the reference id, a trigger whose
insert goes through, followed by a second trigger with the same reference id, leaves
exactly one runner row with that reference id: the first trigger is no duplicate and
adds one row; the second meets a check that returns true, reports a duplicate and leaves
the store as the first left it. -/
theorem trigger_twice_one_row (s : Store) (wfr1 wfr2 : CdWorkflowRunner) (referenceId : String)
    (hfresh : ∀ r ∈ s.runners, r.ReferenceId ≠ some referenceId)
    (hins : (SaveWorkFlowRunner s { wfr1 with ReferenceId := some referenceId }).2.2 = none) :
    (triggerWithReferenceId s wfr1 referenceId).2 = false
      ∧ (triggerWithReferenceId s wfr1 referenceId).1.runners.length = s.runners.length + 1
      ∧ CheckWorkflowRunnerByReferenceId (triggerWithReferenceId s wfr1 referenceId).1 none
          referenceId = (true, none)
      ∧ (triggerWithReferenceId (triggerWithReferenceId s wfr1 referenceId).1 wfr2
          referenceId).2 = true
      ∧ (triggerWithReferenceId (triggerWithReferenceId s wfr1 referenceId).1 wfr2
          referenceId).1 = (triggerWithReferenceId s wfr1 referenceId).1
      ∧ ((triggerWithReferenceId (triggerWithReferenceId s wfr1 referenceId).1 wfr2
          referenceId).1.runners.filter
            (fun r => decide (r.ReferenceId = some referenceId))).length = 1 := by
  have hcheck0 : CheckWorkflowRunnerByReferenceId s none referenceId = (false, none) :=
    (CheckWorkflowRunnerByReferenceId_outcomes s referenceId).2.1.mpr
      (fun ⟨r, hr, h⟩ => hfresh r hr h)
  have hfirst : triggerWithReferenceId s wfr1 referenceId
      = ((SaveWorkFlowRunner s { wfr1 with ReferenceId := some referenceId }).1, false) := by
    unfold triggerWithReferenceId
    rw [hcheck0]
  obtain ⟨saved, hsavedRef, hrun⟩ :=
    SaveWorkFlowRunner_runners_of_ok s { wfr1 with ReferenceId := some referenceId } hins
  have hsavedRef1 : saved.ReferenceId = some referenceId := hsavedRef
  have hcheck1 : CheckWorkflowRunnerByReferenceId
      (SaveWorkFlowRunner s { wfr1 with ReferenceId := some referenceId }).1 none referenceId
      = (true, none) := by
    refine (CheckWorkflowRunnerByReferenceId_outcomes _ referenceId).1.mpr ?_
    rw [hrun]
    exact ⟨saved, List.mem_append_right _ (List.mem_singleton.mpr rfl), hsavedRef1⟩
  have hsecond : triggerWithReferenceId
      (SaveWorkFlowRunner s { wfr1 with ReferenceId := some referenceId }).1 wfr2 referenceId
      = ((SaveWorkFlowRunner s { wfr1 with ReferenceId := some referenceId }).1, true) := by
    unfold triggerWithReferenceId
    rw [hcheck1]
  have hfst : (triggerWithReferenceId s wfr1 referenceId).1
      = (SaveWorkFlowRunner s { wfr1 with ReferenceId := some referenceId }).1 := by
    rw [hfirst]
  rw [hfst, hsecond]
  refine ⟨by rw [hfirst], ?_, hcheck1, rfl, rfl, ?_⟩
  · rw [hrun, List.length_append, List.length_singleton]
  · show (List.filter _ (SaveWorkFlowRunner s _).1.runners).length = 1
    rw [hrun, List.filter_append]
    have hold : s.runners.filter (fun r => decide (r.ReferenceId = some referenceId)) = [] := by
      rw [List.filter_eq_nil_iff]
      intro r hr
      simpa using hfresh r hr
    rw [hold]
    simp [hsavedRef1]

/-- C14, at an instance: two triggers with reference id "evt-1" on the supersede
scenario, whose runners carry no reference id. -/
theorem trigger_twice_one_row_witness :
    (∀ r ∈ supersedeScenario.runners, r.ReferenceId ≠ some "evt-1")
      ∧ (triggerWithReferenceId
          (triggerWithReferenceId supersedeScenario (exampleRunner 0 1 "DEPLOY" "Queued" "")
            "evt-1").1
          (exampleRunner 0 1 "DEPLOY" "Queued" "") "evt-1").2 = true
      ∧ ((triggerWithReferenceId
          (triggerWithReferenceId supersedeScenario (exampleRunner 0 1 "DEPLOY" "Queued" "")
            "evt-1").1
          (exampleRunner 0 1 "DEPLOY" "Queued" "") "evt-1").1.runners.filter
            (fun r => decide (r.ReferenceId = some "evt-1"))).length = 1 :=
  ⟨by decide,
    (trigger_twice_one_row supersedeScenario (exampleRunner 0 1 "DEPLOY" "Queued" "")
      (exampleRunner 0 1 "DEPLOY" "Queued" "") "evt-1" (by decide) (by decide)).2.2.2.1,
    (trigger_twice_one_row supersedeScenario (exampleRunner 0 1 "DEPLOY" "Queued" "")
      (exampleRunner 0 1 "DEPLOY" "Queued" "") "evt-1" (by decide) (by decide)).2.2.2.2.2⟩

/-! ## Consistency of the latest-workflow check -/

theorem IsLatestWf_true_iff_le (s : Store) (P W : Int) :
    (IsLatestWf s P W).1 = true ↔ ∀ wf ∈ s.workflows, wf.PipelineId = P → wf.Id ≤ W := by
  simp [IsLatestWf]

theorem latestWorkflow_spec (l : List CdWorkflow) :
    (l = [] → latestWorkflow l = none)
      ∧ (l ≠ [] → ∃ w, latestWorkflow l = some w)
      ∧ (∀ w, latestWorkflow l = some w → w ∈ l ∧ ∀ x ∈ l, x.Id ≤ w.Id) := by
  induction l with
  | nil =>
    refine ⟨fun _ => rfl, fun h => absurd rfl h, ?_⟩
    intro w h
    simp [latestWorkflow] at h
  | cons wf rest ih =>
    obtain ⟨ih1, ih2, ih3⟩ := ih
    refine ⟨fun h => by simp at h, ?_, ?_⟩
    · intro _
      unfold latestWorkflow
      split
      · exact ⟨wf, rfl⟩
      · split
        · exact ⟨_, rfl⟩
        · exact ⟨wf, rfl⟩
    · intro w hw
      unfold latestWorkflow at hw
      split at hw
      · rename_i hnone
        have hnil : rest = [] := by
          by_contra hne
          obtain ⟨w1, hw1⟩ := ih2 hne
          rw [hw1] at hnone
          simp at hnone
        simp only [Option.some.injEq] at hw
        subst hw
        subst hnil
        simp
      · rename_i best hbest
        obtain ⟨hmem, hmax⟩ := ih3 best hbest
        split at hw
        · rename_i hgt
          simp only [Option.some.injEq] at hw
          subst hw
          refine ⟨List.mem_cons_of_mem _ hmem, ?_⟩
          intro x hx
          rcases List.mem_cons.mp hx with h | h
          · rw [h]; omega
          · exact hmax x h
        · rename_i hgt
          simp only [Option.some.injEq] at hw
          subst hw
          refine ⟨List.mem_cons_self _ _, ?_⟩
          intro x hx
          rcases List.mem_cons.mp hx with h | h
          · rw [h]
          · have := hmax x h
            omega

/-- C20: for every store and pipeline `P`, `IsLatestWf(P, W)` is monotone in `W`; it is
true for every `W` when `P` has no workflow; and when `P` has a workflow,
`FindLatestCdWorkflowByPipelineId([P])` returns without error a stored workflow of `P`
for whose id `IsLatestWf` is true, while it is false for the id of every other workflow
of `P`. -/
theorem IsLatestWf_consistent (s : Store) (P : Int) :
    (∀ W W1 : Int, W ≤ W1 → (IsLatestWf s P W).1 = true → (IsLatestWf s P W1).1 = true)
      ∧ ((∀ wf ∈ s.workflows, wf.PipelineId ≠ P) → ∀ W : Int, (IsLatestWf s P W).1 = true)
      ∧ ((∃ wf ∈ s.workflows, wf.PipelineId = P) →
          (FindLatestCdWorkflowByPipelineId s [P]).2 = none
            ∧ (FindLatestCdWorkflowByPipelineId s [P]).1 ∈ s.workflows
            ∧ (FindLatestCdWorkflowByPipelineId s [P]).1.PipelineId = P
            ∧ (IsLatestWf s P (FindLatestCdWorkflowByPipelineId s [P]).1.Id).1 = true
            ∧ ∀ wf ∈ s.workflows, wf.PipelineId = P →
                wf.Id ≠ (FindLatestCdWorkflowByPipelineId s [P]).1.Id →
                (IsLatestWf s P wf.Id).1 = false) := by
  have htrue : ∀ W : Int, (IsLatestWf s P W).1 = true ↔
      ∀ wf ∈ s.workflows, wf.PipelineId = P → wf.Id ≤ W := by
    intro W
    exact IsLatestWf_true_iff_le s P W
  refine ⟨?_, ?_, ?_⟩
  · intro W W1 hle h
    rw [htrue] at h ⊢
    intro wf hwf hp
    have := h wf hwf hp
    omega
  · intro hnone W
    rw [htrue]
    intro wf hwf hp
    exact absurd hp (hnone wf hwf)
  · rintro ⟨wf0, hwf0, hp0⟩
    have hne : s.workflows.filter (fun wf => decide (wf.PipelineId ∈ [P])) ≠ [] := by
      intro hnil
      have : wf0 ∈ s.workflows.filter (fun wf => decide (wf.PipelineId ∈ [P])) :=
        List.mem_filter.mpr ⟨hwf0, by simp [hp0]⟩
      rw [hnil] at this
      exact absurd this (List.not_mem_nil _)
    obtain ⟨_, hex, hspec⟩ :=
      latestWorkflow_spec (s.workflows.filter (fun wf => decide (wf.PipelineId ∈ [P])))
    obtain ⟨w, hw⟩ := hex hne
    obtain ⟨hmem, hmax⟩ := hspec w hw
    have hfind : FindLatestCdWorkflowByPipelineId s [P] = (w, none) := by
      unfold FindLatestCdWorkflowByPipelineId
      rw [if_neg (by simp), hw]
    have hwmem := (List.mem_filter.mp hmem).1
    have hwp : w.PipelineId = P := by
      have := (List.mem_filter.mp hmem).2
      simpa using this
    have hle : ∀ wf ∈ s.workflows, wf.PipelineId = P → wf.Id ≤ w.Id := by
      intro wf hwf hp
      exact hmax wf (List.mem_filter.mpr ⟨hwf, by simp [hp]⟩)
    rw [hfind]
    refine ⟨rfl, hwmem, hwp, (htrue w.Id).mpr hle, ?_⟩
    intro wf hwf hp hid
    have hlt : wf.Id < w.Id := lt_of_le_of_ne (hle wf hwf hp) hid
    by_contra hc
    have ht : (IsLatestWf s P wf.Id).1 = true := by
      cases h : (IsLatestWf s P wf.Id).1
      · exact absurd h hc
      · rfl
    have := (htrue wf.Id).mp ht w hwmem hwp
    omega

/-! ## Lookups with an empty id list -/

/-- C18, as stated, fails for `FindLatestRunnerByPipelineIdsAndRunnerType`: with an empty
pipeline-id list it does not return an empty result without error. -/
theorem FindLatestRunner_empty_not_silent :
    ¬ (FindLatestRunnerByPipelineIdsAndRunnerType sweepScenario [] "DEPLOY" = ([], none)) := by
  decide

/-- C18, amended: with an empty (or nil) pipeline-id list `FetchAllCdStagesLatestEntity`
returns an empty result and no error, and `FindLatestRunnerByPipelineIdsAndRunnerType`
returns an empty result together with the error `pg.ErrNoRows`, whatever the store and
the runner type. -/
theorem empty_id_list_lookups (s : Store) (runnerType : String) :
    FetchAllCdStagesLatestEntity s [] = ([], none)
      ∧ FindLatestRunnerByPipelineIdsAndRunnerType s [] runnerType
          = ([], some PgError.ErrNoRows) :=
  ⟨rfl, rfl⟩

/-! ## The sweep: which workflows the subquery keeps -/

theorem foldl_max_mem (l : List Int) : ∀ a : Int, l.foldl max a = a ∨ l.foldl max a ∈ l := by
  induction l with
  | nil => intro a; exact Or.inl rfl
  | cons x l ih =>
    intro a
    simp only [List.foldl_cons, List.mem_cons]
    rcases ih (max a x) with h | h
    · rw [h]
      rcases max_choice a x with h1 | h1
      · exact Or.inl h1
      · exact Or.inr (Or.inl h1)
    · exact Or.inr (Or.inr h)

theorem maxOfIds_spec (l : List Int) (hne : l ≠ []) :
    maxOfIds l ∈ l ∧ ∀ x ∈ l, x ≤ maxOfIds l := by
  cases l with
  | nil => exact absurd rfl hne
  | cons i rest =>
    simp only [maxOfIds]
    obtain ⟨h1, h2⟩ := foldl_max_bounds rest i
    refine ⟨?_, ?_⟩
    · rcases foldl_max_mem rest i with h | h
      · rw [h]; exact List.mem_cons_self _ _
      · exact List.mem_cons_of_mem _ h
    · intro x hx
      rcases List.mem_cons.mp hx with h | h
      · rw [h]; exact h1
      · exact h2 x h

theorem mem_groupMax {κ : Type} [DecidableEq κ] (rows : List (κ × Int)) (k : κ) (m : Int) :
    (k, m) ∈ groupMax rows ↔
      (k, m) ∈ rows ∧ ∀ row ∈ rows, row.1 = k → row.2 ≤ m := by
  unfold groupMax
  simp only [List.mem_map, List.mem_dedup, Prod.mk.injEq]
  constructor
  · rintro ⟨k1, ⟨row, hrow, hk1⟩, hk, hm⟩
    subst hk
    have hne : (rows.filter (fun r => decide (r.1 = k1))).map (fun r => r.2) ≠ [] := by
      intro hnil
      have : row.2 ∈ (rows.filter (fun r => decide (r.1 = k1))).map (fun r => r.2) :=
        List.mem_map.mpr ⟨row, List.mem_filter.mpr ⟨hrow, by simp [hk1]⟩, rfl⟩
      rw [hnil] at this
      exact absurd this (List.not_mem_nil _)
    obtain ⟨hmem, hmax⟩ := maxOfIds_spec _ hne
    rw [hm] at hmem hmax
    refine ⟨?_, ?_⟩
    · obtain ⟨r1, hr1, hr1m⟩ := List.mem_map.mp hmem
      obtain ⟨hr1mem, hr1k⟩ := List.mem_filter.mp hr1
      have hk2 : r1.1 = k1 := by simpa using hr1k
      have : r1 = (k1, m) := Prod.ext hk2 hr1m
      rw [← this]
      exact hr1mem
    · intro r1 hr1 hr1k
      exact hmax r1.2 (List.mem_map.mpr ⟨r1, List.mem_filter.mpr ⟨hr1, by simp [hr1k]⟩, rfl⟩)
  · rintro ⟨hmem, hmax⟩
    refine ⟨k, ⟨(k, m), hmem, rfl⟩, rfl, ?_⟩
    have hne : (rows.filter (fun r => decide (r.1 = k))).map (fun r => r.2) ≠ [] := by
      intro hnil
      have : m ∈ (rows.filter (fun r => decide (r.1 = k))).map (fun r => r.2) :=
        List.mem_map.mpr ⟨(k, m), List.mem_filter.mpr ⟨hmem, by simp⟩, rfl⟩
      rw [hnil] at this
      exact absurd this (List.not_mem_nil _)
    obtain ⟨hin, hle⟩ := maxOfIds_spec _ hne
    obtain ⟨r1, hr1, hr1m⟩ := List.mem_map.mp hin
    obtain ⟨hr1mem, hr1k⟩ := List.mem_filter.mp hr1
    have hk2 : r1.1 = k := by simpa using hr1k
    have h1 := hmax r1 hr1mem hk2
    have h2 := hle m (List.mem_map.mpr ⟨(k, m), List.mem_filter.mpr ⟨hmem, by simp⟩, rfl⟩)
    rw [hr1m] at h1
    omega

theorem sqlNotEqual_iff (column value : String) :
    sqlNotEqual column value = true ↔ column ≠ "" ∧ column ≠ value := by
  simp [sqlNotEqual]

theorem sqlNotIn_iff (column : String) (values : List String) :
    sqlNotIn column values = true ↔ column ≠ "" ∧ column ∉ values := by
  simp [sqlNotIn]

theorem sqlGreater_iff (column bound : Int) :
    sqlGreater column bound = true ↔ column ≠ zeroTime ∧ bound < column := by
  simp [sqlGreater]

theorem mem_latestStartedWorkflowIds (s : Store) (x : Int) :
    x ∈ latestStartedWorkflowIds s ↔
      ∃ wf ∈ s.workflows, wf.Id = x
        ∧ (∃ r ∈ s.runners, r.CdWorkflowId = wf.Id ∧ r.Status ≠ ""
            ∧ r.Status ≠ WorkflowInQueue)
        ∧ ∀ wf1 ∈ s.workflows, wf1.PipelineId = wf.PipelineId →
            (∃ r ∈ s.runners, r.CdWorkflowId = wf1.Id ∧ r.Status ≠ ""
              ∧ r.Status ≠ WorkflowInQueue) →
            wf1.Id ≤ x := by
  have hrows : ∀ (P i : Int),
      (P, i) ∈ s.workflows.flatMap (fun wf =>
        (s.runners.filter (fun r =>
            decide (wf.Id = r.CdWorkflowId) && sqlNotEqual r.Status WorkflowInQueue)).map
          (fun _ => (wf.PipelineId, wf.Id))) ↔
        ∃ wf ∈ s.workflows, wf.PipelineId = P ∧ wf.Id = i
          ∧ ∃ r ∈ s.runners, r.CdWorkflowId = wf.Id ∧ r.Status ≠ ""
              ∧ r.Status ≠ WorkflowInQueue := by
    intro P i
    simp only [List.mem_flatMap, List.mem_map, List.mem_filter, Bool.and_eq_true,
      decide_eq_true_eq, sqlNotEqual_iff, Prod.mk.injEq]
    constructor
    · rintro ⟨wf, hwf, r, ⟨hr, hid, hst⟩, hP, hi⟩
      exact ⟨wf, hwf, hP, hi, r, hr, hid.symm, hst⟩
    · rintro ⟨wf, hwf, hP, hi, r, hr, hid, hst⟩
      exact ⟨wf, hwf, r, ⟨hr, hid.symm, hst⟩, hP, hi⟩
  unfold latestStartedWorkflowIds
  simp only [List.mem_map]
  constructor
  · rintro ⟨⟨P, i⟩, hmem, hx⟩
    simp only at hx
    subst hx
    obtain ⟨hin, hmax⟩ := (mem_groupMax _ P i).mp hmem
    obtain ⟨wf, hwf, hP, hi, hstarted⟩ := (hrows P i).mp hin
    refine ⟨wf, hwf, hi, hstarted, ?_⟩
    intro wf1 hwf1 hP1 hstarted1
    exact hmax (P, wf1.Id) ((hrows P wf1.Id).mpr ⟨wf1, hwf1, by rw [hP1, hP], rfl, hstarted1⟩) rfl
  · rintro ⟨wf, hwf, hid, hstarted, hmax⟩
    refine ⟨(wf.PipelineId, x), (mem_groupMax _ _ _).mpr ⟨?_, ?_⟩, rfl⟩
    · exact (hrows _ _).mpr ⟨wf, hwf, rfl, hid, hstarted⟩
    · rintro ⟨P, i⟩ hrow hk
      simp only at hk
      subst hk
      obtain ⟨wf1, hwf1, hP1, hi1, hstarted1⟩ := (hrows _ _).mp hrow
      rw [← hi1]
      exact hmax wf1 hwf1 hP1 hstarted1

theorem mem_leftJoinRows_none {α : Type} (found : List α) :
    none ∈ leftJoinRows found ↔ found = [] := by
  cases found with
  | nil => simp [leftJoinRows]
  | cons a l => simp [leftJoinRows]

theorem mem_leftJoinRows_some {α : Type} (found : List α) (a : α) :
    some a ∈ leftJoinRows found ↔ a ∈ found := by
  cases found with
  | nil => simp [leftJoinRows]
  | cons b l => simp [leftJoinRows]

theorem mem_sweep (s : Store) (now h : Int) (r : CdWorkflowRunner) :
    r ∈ (GetLatestTriggersOfHelmPipelinesStuckInNonTerminalStatuses s now h).1 ↔
      r ∈ s.runners ∧ ∃ wf ∈ s.workflows, wf.Id = r.CdWorkflowId ∧
        ∃ p ∈ s.pipelines, p.Id = wf.PipelineId ∧ p.EnvironmentId ∈ s.environments
          ∧ r.WorkflowType = CD_WORKFLOW_TYPE_DEPLOY
          ∧ sqlNotIn r.Status
              (WfrTerminalStatusList ++ [WorkflowInitiated, WorkflowInQueue, WorkflowStarting])
              = true
          ∧ r.CdWorkflowId ∈ latestStartedWorkflowIds s
          ∧ (p.DeploymentAppType = PIPELINE_DEPLOYMENT_TYPE_HELM
              ∨ ∃ dc ∈ s.deploymentConfigs, dc.Active = true ∧ dc.AppId = p.AppId
                  ∧ dc.EnvironmentId = p.EnvironmentId
                  ∧ dc.DeploymentAppType = PIPELINE_DEPLOYMENT_TYPE_HELM)
          ∧ sqlGreater r.StartedOn (now - h * hourLength) = true
          ∧ p.Deleted = false := by
  unfold GetLatestTriggersOfHelmPipelinesStuckInNonTerminalStatuses
  simp only [List.mem_insertionSort, List.mem_flatMap, List.mem_map, List.mem_filter]
  constructor
  · rintro ⟨a, ha, wf, ⟨hwf, hid⟩, p, ⟨hp, hpid⟩, e, ⟨he, hee⟩, dc, ⟨hdc, hcond⟩, rfl⟩
    simp only [Bool.and_eq_true, decide_eq_true_eq, Bool.not_eq_true', Bool.or_eq_true,
      gt_iff_lt] at hcond hid hpid hee
    obtain ⟨⟨⟨⟨⟨hty, hst⟩, hlatest⟩, hhelm⟩, htime⟩, hdel⟩ := hcond
    refine ⟨ha, wf, hwf, hid, p, hp, hpid, hee ▸ he, hty, hst, hlatest, ?_, htime, hdel⟩
    rcases hhelm with h1 | h2
    · exact Or.inl h1
    · cases dc with
      | none => simp at h2
      | some c =>
        have hc := List.mem_filter.mp ((mem_leftJoinRows_some _ c).mp hdc)
        simp only [Bool.and_eq_true, decide_eq_true_eq] at hc h2
        exact Or.inr ⟨c, hc.1, hc.2.1.1, hc.2.1.2, hc.2.2, h2⟩
  · rintro ⟨hr, wf, hwf, hid, p, hp, hpid, henv, hty, hst, hlatest, hhelm, htime, hdel⟩
    have hdc : ∃ dc ∈ leftJoinRows (s.deploymentConfigs.filter (fun dc =>
          dc.Active && decide (dc.AppId = p.AppId)
            && decide (dc.EnvironmentId = p.EnvironmentId))),
        (decide (p.DeploymentAppType = PIPELINE_DEPLOYMENT_TYPE_HELM)
          || (match dc with
              | some c => decide (c.DeploymentAppType = PIPELINE_DEPLOYMENT_TYPE_HELM)
              | none => false)) = true := by
      rcases hhelm with h1 | ⟨c, hc, hact, happ, henvc, hhelmc⟩
      · cases hl : s.deploymentConfigs.filter (fun dc =>
            dc.Active && decide (dc.AppId = p.AppId)
              && decide (dc.EnvironmentId = p.EnvironmentId)) with
        | nil => exact ⟨none, by simp [leftJoinRows], by simp [h1]⟩
        | cons c l => exact ⟨some c, by simp [leftJoinRows], by simp [h1]⟩
      · refine ⟨some c, (mem_leftJoinRows_some _ c).mpr (List.mem_filter.mpr ⟨hc, ?_⟩), ?_⟩
        · simp [hact, happ, henvc]
        · simp [hhelmc]
    obtain ⟨dc, hdcmem, hdcok⟩ := hdc
    refine ⟨r, hr, wf, ⟨hwf, by simp [hid]⟩, p, ⟨hp, by simp [hpid]⟩, p.EnvironmentId,
      ⟨henv, by simp⟩, dc, ⟨hdcmem, ?_⟩, rfl⟩
    simp only [Bool.and_eq_true, decide_eq_true_eq, Bool.not_eq_true', gt_iff_lt]
    exact ⟨⟨⟨⟨⟨hty, hst⟩, hlatest⟩, hdcok⟩, htime⟩, hdel⟩

/-! ## The sweep: selection -/

/-- C16, as stated, fails: in `emptyStatusScenario` the runner `emptyStatusRunner` is a
Deploy-stage runner of a helm pipeline that is not deleted, its workflow is the
pipeline's latest, its status is neither terminal nor Queued, Initiating or Starting,
and it started two hours before time 360000; yet the 24-hour sweep does not return it,
because its empty status is NULL in the database. -/
theorem sweep_skips_empty_status :
    ¬ (emptyStatusRunner
          ∈ (GetLatestTriggersOfHelmPipelinesStuckInNonTerminalStatuses emptyStatusScenario
              360000 24).1 ↔
        emptyStatusRunner ∈ emptyStatusScenario.runners
          ∧ emptyStatusRunner.WorkflowType = CD_WORKFLOW_TYPE_DEPLOY
          ∧ (∃ wf ∈ emptyStatusScenario.workflows, wf.Id = emptyStatusRunner.CdWorkflowId
              ∧ (∃ p ∈ emptyStatusScenario.pipelines, p.Id = wf.PipelineId ∧ p.Deleted = false
                  ∧ (p.DeploymentAppType = PIPELINE_DEPLOYMENT_TYPE_HELM
                      ∨ ∃ dc ∈ emptyStatusScenario.deploymentConfigs, dc.Active = true
                          ∧ dc.AppId = p.AppId ∧ dc.EnvironmentId = p.EnvironmentId
                          ∧ dc.DeploymentAppType = PIPELINE_DEPLOYMENT_TYPE_HELM))
              ∧ (∀ wf1 ∈ emptyStatusScenario.workflows, wf1.PipelineId = wf.PipelineId →
                  (∃ x ∈ emptyStatusScenario.runners, x.CdWorkflowId = wf1.Id
                    ∧ x.Status ≠ "Queued") →
                  wf1.Id ≤ wf.Id))
          ∧ emptyStatusRunner.Status ∉ WfrTerminalStatusList
          ∧ emptyStatusRunner.Status ≠ "Queued" ∧ emptyStatusRunner.Status ≠ "Initiating"
          ∧ emptyStatusRunner.Status ≠ "Starting"
          ∧ 360000 - 24 * hourLength < emptyStatusRunner.StartedOn) := by
  decide

/-- C16, amended: in a store whose workflow ids are keys (workflows of one id lie in one
pipeline) and whose pipelines name a stored environment, the sweep with a window of `h`
hours returns a runner exactly when it is a Deploy-stage runner of a pipeline that is
not deleted and is of type helm (by its own deployment type or by the active deployment
config of its app and environment), its workflow has the greatest id among the
pipeline's workflows that have a runner whose status is set and is not Queued, its
status is set (not empty, which the database holds as NULL) and is neither in the
terminal list nor Queued, Initiating or Starting, and its start is set and lies after
`now` minus `h` hours.  Progressing, TimedOut and UnableToFetch pass the status test,
and no error is reported. -/
theorem sweep_selection (s : Store) (now h : Int)
    (hkey : ∀ w1 ∈ s.workflows, ∀ w2 ∈ s.workflows, w1.Id = w2.Id →
      w1.PipelineId = w2.PipelineId)
    (henv : ∀ p ∈ s.pipelines, p.EnvironmentId ∈ s.environments) :
    (∀ r : CdWorkflowRunner,
      r ∈ (GetLatestTriggersOfHelmPipelinesStuckInNonTerminalStatuses s now h).1 ↔
        r ∈ s.runners ∧ r.WorkflowType = CD_WORKFLOW_TYPE_DEPLOY
          ∧ (∃ wf ∈ s.workflows, wf.Id = r.CdWorkflowId
              ∧ (∃ p ∈ s.pipelines, p.Id = wf.PipelineId ∧ p.Deleted = false
                  ∧ (p.DeploymentAppType = PIPELINE_DEPLOYMENT_TYPE_HELM
                      ∨ ∃ dc ∈ s.deploymentConfigs, dc.Active = true ∧ dc.AppId = p.AppId
                          ∧ dc.EnvironmentId = p.EnvironmentId
                          ∧ dc.DeploymentAppType = PIPELINE_DEPLOYMENT_TYPE_HELM))
              ∧ (∀ wf1 ∈ s.workflows, wf1.PipelineId = wf.PipelineId →
                  (∃ x ∈ s.runners, x.CdWorkflowId = wf1.Id ∧ x.Status ≠ ""
                    ∧ x.Status ≠ "Queued") →
                  wf1.Id ≤ wf.Id))
          ∧ r.Status ≠ "" ∧ r.Status ∉ WfrTerminalStatusList
          ∧ r.Status ≠ "Queued" ∧ r.Status ≠ "Initiating" ∧ r.Status ≠ "Starting"
          ∧ r.StartedOn ≠ zeroTime ∧ now - h * hourLength < r.StartedOn)
      ∧ (∀ st ∈ ["Progressing", "TimedOut", "UnableToFetch"],
          st ≠ "" ∧ st ∉ WfrTerminalStatusList ∧ st ≠ "Queued" ∧ st ≠ "Initiating"
            ∧ st ≠ "Starting")
      ∧ (GetLatestTriggersOfHelmPipelinesStuckInNonTerminalStatuses s now h).2 = none := by
  have hstatus : ∀ st : String,
      sqlNotIn st
          (WfrTerminalStatusList ++ [WorkflowInitiated, WorkflowInQueue, WorkflowStarting])
          = true ↔
        st ≠ "" ∧ st ∉ WfrTerminalStatusList ∧ st ≠ "Queued" ∧ st ≠ "Initiating"
          ∧ st ≠ "Starting" := by
    intro st
    rw [sqlNotIn_iff, List.mem_append]
    simp only [WorkflowInitiated, WorkflowInQueue, WorkflowStarting, List.mem_cons,
      List.mem_singleton, List.not_mem_nil, or_false, not_or]
    tauto
  refine ⟨?_, by decide, rfl⟩
  intro r
  rw [mem_sweep]
  constructor
  · rintro ⟨hr, wf, hwf, hid, p, hp, hpid, _, hty, hst, hlatest, hhelm, htime, hdel⟩
    obtain ⟨hset, hterm, hq, hi, hs⟩ := (hstatus r.Status).mp hst
    obtain ⟨htset, htlt⟩ := (sqlGreater_iff _ _).mp htime
    refine ⟨hr, hty, ⟨wf, hwf, hid, ⟨p, hp, hpid, hdel, hhelm⟩, ?_⟩, hset, hterm, hq, hi, hs,
      htset, htlt⟩
    obtain ⟨wf0, hwf0, hid0, _, hmax⟩ := (mem_latestStartedWorkflowIds s _).mp hlatest
    have hsame : wf0.PipelineId = wf.PipelineId := hkey wf0 hwf0 wf hwf (by rw [hid0, hid])
    intro wf1 hwf1 hp1 hstarted
    rw [hid]
    exact hmax wf1 hwf1 (by rw [hp1, hsame]) hstarted
  · rintro ⟨hr, hty, ⟨wf, hwf, hid, ⟨p, hp, hpid, hdel, hhelm⟩, hmax⟩, hset, hterm, hq, hi, hs,
      htset, htlt⟩
    refine ⟨hr, wf, hwf, hid, p, hp, hpid, henv p hp, hty,
      (hstatus r.Status).mpr ⟨hset, hterm, hq, hi, hs⟩, ?_, hhelm,
      (sqlGreater_iff _ _).mpr ⟨htset, htlt⟩, hdel⟩
    refine (mem_latestStartedWorkflowIds s _).mpr ⟨wf, hwf, hid, ⟨r, hr, hid.symm, hset, hq⟩, ?_⟩
    intro wf1 hwf1 hp1 hstarted
    rw [← hid]
    exact hmax wf1 hwf1 hp1 hstarted

/-- C16, amended, at the scenario of the claim: at time 360000 the 24-hour sweep over
`sweepScenario` returns runner 20 and nothing else, and runner 20 meets the conditions
of the selection. -/
theorem sweep_selection_witness :
    (∀ w1 ∈ sweepScenario.workflows, ∀ w2 ∈ sweepScenario.workflows, w1.Id = w2.Id →
        w1.PipelineId = w2.PipelineId)
      ∧ (∀ p ∈ sweepScenario.pipelines, p.EnvironmentId ∈ sweepScenario.environments)
      ∧ (GetLatestTriggersOfHelmPipelinesStuckInNonTerminalStatuses sweepScenario 360000 24).1
          = [{ exampleRunner 20 2 "DEPLOY" "Progressing" "" with StartedOn := 352800 }]
      ∧ (∀ r ∈ (GetLatestTriggersOfHelmPipelinesStuckInNonTerminalStatuses sweepScenario
            360000 24).1,
          r.WorkflowType = CD_WORKFLOW_TYPE_DEPLOY ∧ r.Status ≠ ""
            ∧ r.Status ∉ WfrTerminalStatusList
            ∧ 360000 - 24 * hourLength < r.StartedOn) :=
  ⟨by decide, by decide, by decide, fun r hr =>
    ⟨(((sweep_selection sweepScenario 360000 24 (by decide) (by decide)).1 r).mp hr).2.1,
      (((sweep_selection sweepScenario 360000 24 (by decide) (by decide)).1 r).mp hr).2.2.2.1,
      (((sweep_selection sweepScenario 360000 24 (by decide) (by decide)).1 r).mp
        hr).2.2.2.2.1,
      (((sweep_selection sweepScenario 360000 24 (by decide) (by decide)).1 r).mp
        hr).2.2.2.2.2.2.2.2.2⟩⟩

/-! ## The sweep: rows per pipeline -/

/-- C17, as stated, fails: pipeline 1 of `twoDeployRunnersInOneWorkflow` has two stuck
Deploy runners in its latest workflow and the sweep returns both. -/
theorem sweep_two_rows_one_pipeline :
    ¬ (∀ P : Int,
        ((GetLatestTriggersOfHelmPipelinesStuckInNonTerminalStatuses
            twoDeployRunnersInOneWorkflow 360000 24).1.filter
          (fun r => runnerInPipeline twoDeployRunnersInOneWorkflow r P)).length ≤ 1) := by
  intro h
  have h1 := h 1
  revert h1
  decide

theorem filter_key_length_le_one {α κ : Type} [DecidableEq κ] (key : α → κ) (k : κ)
    (l : List α) (hnd : (l.map key).Nodup) :
    (l.filter (fun a => decide (key a = k))).length ≤ 1 := by
  induction l with
  | nil => simp
  | cons a l ih =>
    rw [List.map_cons, List.nodup_cons] at hnd
    obtain ⟨hnot, hrest⟩ := hnd
    rw [List.filter_cons]
    split
    · rename_i hk
      have hka : key a = k := by simpa using hk
      have hnil : l.filter (fun a => decide (key a = k)) = [] := by
        rw [List.filter_eq_nil_iff]
        intro b hb hkb
        have hkb2 : key b = k := by simpa using hkb
        exact hnot (List.mem_map.mpr ⟨b, hb, by rw [hkb2, hka]⟩)
      rw [hnil]
      simp
    · exact ih hrest

theorem flatMap_length_le_one {α β : Type} (l : List α) (f : α → List β)
    (hl : l.length ≤ 1) (hf : ∀ a ∈ l, (f a).length ≤ 1) : (l.flatMap f).length ≤ 1 := by
  cases l with
  | nil => simp
  | cons a rest =>
    cases rest with
    | nil =>
      simp only [List.flatMap_cons, List.flatMap_nil, List.append_nil]
      exact hf a (List.mem_cons_self _ _)
    | cons b rest2 =>
      simp only [List.length_cons] at hl
      omega

theorem sublist_singleton_of {α : Type} (x : α) (l : List α) (hall : ∀ y ∈ l, y = x)
    (hlen : l.length ≤ 1) : l.Sublist [x] := by
  cases l with
  | nil => exact List.nil_sublist _
  | cons a rest =>
    cases rest with
    | nil =>
      rw [hall a (List.mem_cons_self _ _)]
    | cons b rest2 =>
      simp only [List.length_cons] at hlen
      omega

theorem flatMap_sublist_self {α : Type} (l : List α) (G : α → List α)
    (hG : ∀ x ∈ l, (G x).Sublist [x]) : (l.flatMap G).Sublist l := by
  induction l with
  | nil => simp
  | cons x l ih =>
    rw [List.flatMap_cons]
    have h1 := hG x (List.mem_cons_self _ _)
    have h2 := ih (fun y hy => hG y (List.mem_cons_of_mem _ hy))
    exact List.Sublist.append h1 h2

theorem leftJoinRows_length_le_one {α : Type} (found : List α) (h : found.length ≤ 1) :
    (leftJoinRows found).length ≤ 1 := by
  cases found with
  | nil => simp [leftJoinRows]
  | cons a l => simpa [leftJoinRows] using h

theorem sweep_sublist_runners (s : Store) (now h : Int)
    (hwf : (s.workflows.map (fun wf => wf.Id)).Nodup)
    (hpl : (s.pipelines.map (fun p => p.Id)).Nodup)
    (henv : s.environments.Nodup)
    (hdc : ∀ p ∈ s.pipelines,
      (s.deploymentConfigs.filter (fun dc =>
        dc.Active && decide (dc.AppId = p.AppId)
          && decide (dc.EnvironmentId = p.EnvironmentId))).length ≤ 1) :
    ∃ rows : List CdWorkflowRunner, rows.Sublist s.runners ∧
      (GetLatestTriggersOfHelmPipelinesStuckInNonTerminalStatuses s now h).1.Perm rows := by
  unfold GetLatestTriggersOfHelmPipelinesStuckInNonTerminalStatuses
  refine ⟨_, ?_, List.perm_insertionSort _ _⟩
  apply flatMap_sublist_self
  intro x _
  apply sublist_singleton_of
  · intro y hy
    simp only [List.mem_flatMap, List.mem_map] at hy
    obtain ⟨_, _, _, _, _, _, _, _, hxy⟩ := hy
    exact hxy.symm
  · apply flatMap_length_le_one
    · exact filter_key_length_le_one (fun wf : CdWorkflow => wf.Id) x.CdWorkflowId _ hwf
    · intro wf _
      apply flatMap_length_le_one
      · exact filter_key_length_le_one (fun p : Pipeline => p.Id) wf.PipelineId _ hpl
      · intro p hp
        apply flatMap_length_le_one
        · have := filter_key_length_le_one (fun e : Int => e) p.EnvironmentId s.environments
            (by simpa using henv)
          exact this
        · intro e _
          rw [List.length_map]
          refine le_trans (List.length_filter_le _ _) ?_
          exact leftJoinRows_length_le_one _ (hdc p (List.mem_filter.mp hp).1)

theorem sweep_rows_same_workflow (s : Store) (now h P : Int)
    (hwf : (s.workflows.map (fun wf => wf.Id)).Nodup)
    (r1 r2 : CdWorkflowRunner)
    (h1 : r1 ∈ (GetLatestTriggersOfHelmPipelinesStuckInNonTerminalStatuses s now h).1)
    (h2 : r2 ∈ (GetLatestTriggersOfHelmPipelinesStuckInNonTerminalStatuses s now h).1)
    (hp1 : runnerInPipeline s r1 P = true) (hp2 : runnerInPipeline s r2 P = true) :
    r1.CdWorkflowId = r2.CdWorkflowId := by
  have hlatest : ∀ r ∈ (GetLatestTriggersOfHelmPipelinesStuckInNonTerminalStatuses s now h).1,
      runnerInPipeline s r P = true →
      ∃ wf ∈ s.workflows, wf.Id = r.CdWorkflowId ∧ wf.PipelineId = P
        ∧ (∃ x ∈ s.runners, x.CdWorkflowId = wf.Id ∧ x.Status ≠ ""
            ∧ x.Status ≠ WorkflowInQueue)
        ∧ ∀ wf1 ∈ s.workflows, wf1.PipelineId = P →
            (∃ x ∈ s.runners, x.CdWorkflowId = wf1.Id ∧ x.Status ≠ ""
              ∧ x.Status ≠ WorkflowInQueue) →
            wf1.Id ≤ wf.Id := by
    intro r hr hp
    obtain ⟨_, _, _, _, _, _, _, _, _, _, hl, _⟩ := (mem_sweep s now h r).mp hr
    obtain ⟨wf, hwfm, hid, hstarted, hmax⟩ := (mem_latestStartedWorkflowIds s _).mp hl
    obtain ⟨wa, hwa, hwaid, hwap⟩ := (runnerInPipeline_iff s r P).mp hp
    have heq : wf = wa := List.inj_on_of_nodup_map hwf hwfm hwa (by rw [hid, hwaid])
    subst heq
    refine ⟨wf, hwfm, hid, hwap, hstarted, ?_⟩
    intro wf1 hwf1 hp1 hs1
    rw [hid]
    exact hmax wf1 hwf1 (by rw [hp1, hwap]) hs1
  obtain ⟨wa, hwa, hida, hpa, hsa, hmaxa⟩ := hlatest r1 h1 hp1
  obtain ⟨wb, hwb, hidb, hpb, hsb, hmaxb⟩ := hlatest r2 h2 hp2
  have hab := hmaxb wa hwa hpa hsa
  have hba := hmaxa wb hwb hpb hsb
  rw [← hida, ← hidb]
  omega

/-- C17, amended: when workflow ids, pipeline ids and environment ids are keys, a
pipeline's app and environment have at most one active deployment config, and no
workflow has more than one Deploy-stage runner, the sweep returns at most one row per
pipeline, however many older Deploy runners of the pipeline are stuck; under the key
conditions alone, all rows returned for one pipeline belong to one workflow. -/
theorem sweep_one_row_per_pipeline (s : Store) (now h : Int)
    (hwf : (s.workflows.map (fun wf => wf.Id)).Nodup)
    (hpl : (s.pipelines.map (fun p => p.Id)).Nodup)
    (henv : s.environments.Nodup)
    (hdc : ∀ p ∈ s.pipelines,
      (s.deploymentConfigs.filter (fun dc =>
        dc.Active && decide (dc.AppId = p.AppId)
          && decide (dc.EnvironmentId = p.EnvironmentId))).length ≤ 1)
    (hone : ∀ wfId : Int,
      (s.runners.filter (fun r =>
        decide (r.WorkflowType = CD_WORKFLOW_TYPE_DEPLOY)
          && decide (r.CdWorkflowId = wfId))).length ≤ 1)
    (P : Int) :
    ((GetLatestTriggersOfHelmPipelinesStuckInNonTerminalStatuses s now h).1.filter
        (fun r => runnerInPipeline s r P)).length ≤ 1
      ∧ ∀ r1 ∈ (GetLatestTriggersOfHelmPipelinesStuckInNonTerminalStatuses s now h).1,
          ∀ r2 ∈ (GetLatestTriggersOfHelmPipelinesStuckInNonTerminalStatuses s now h).1,
          runnerInPipeline s r1 P = true → runnerInPipeline s r2 P = true →
          r1.CdWorkflowId = r2.CdWorkflowId := by
  refine ⟨?_, fun r1 h1 r2 h2 hp1 hp2 =>
    sweep_rows_same_workflow s now h P hwf r1 r2 h1 h2 hp1 hp2⟩
  obtain ⟨rows, hsub, hperm⟩ := sweep_sublist_runners s now h hwf hpl henv hdc
  rw [(hperm.filter _).length_eq]
  by_cases hex : ∃ r0 ∈ rows, runnerInPipeline s r0 P = true
  · obtain ⟨r0, hr0, hp0⟩ := hex
    have hcongr : rows.filter (fun r => runnerInPipeline s r P)
        = rows.filter (fun r => runnerInPipeline s r P &&
            (decide (r.WorkflowType = CD_WORKFLOW_TYPE_DEPLOY)
              && decide (r.CdWorkflowId = r0.CdWorkflowId))) := by
      apply List.filter_congr
      intro r hr
      cases hp : runnerInPipeline s r P
      · rfl
      · have hrs := hperm.mem_iff.mpr hr
        have hr0s := hperm.mem_iff.mpr hr0
        have hsame := sweep_rows_same_workflow s now h P hwf r r0 hrs hr0s hp hp0
        obtain ⟨_, _, _, _, _, _, _, _, hty, _⟩ := (mem_sweep s now h r).mp hrs
        simp [hty, hsame]
    rw [hcongr]
    refine le_trans (hsub.filter _).length_le ?_
    rw [← List.filter_filter]
    exact le_trans (List.length_filter_le _ _) (hone r0.CdWorkflowId)
  · have hnil : rows.filter (fun r => runnerInPipeline s r P) = [] := by
      rw [List.filter_eq_nil_iff]
      intro r hr hp
      exact hex ⟨r, hr, hp⟩
    rw [hnil]
    simp

theorem sweepScenario_one_deploy_runner (wfId : Int) :
    (sweepScenario.runners.filter (fun r =>
      decide (r.WorkflowType = CD_WORKFLOW_TYPE_DEPLOY)
        && decide (r.CdWorkflowId = wfId))).length ≤ 1 := by
  have h1 : sweepScenario.runners.map (fun r => r.CdWorkflowId) = [1, 2, 3] := by decide
  have hnd : (sweepScenario.runners.map (fun r => r.CdWorkflowId)).Nodup := by
    rw [h1]; decide
  have := filter_key_length_le_one (fun r : CdWorkflowRunner => r.CdWorkflowId) wfId
    sweepScenario.runners hnd
  refine le_trans ?_ this
  rw [← List.filter_filter]
  exact List.length_filter_le _ _

/-- C17, amended, at an instance: the scenario of the sweep has one Deploy runner per
workflow, and the 24-hour sweep at time 360000 returns one row for pipeline 1. -/
theorem sweep_one_row_per_pipeline_witness :
    (sweepScenario.workflows.map (fun wf => wf.Id)).Nodup
      ∧ (∀ wfId : Int,
          (sweepScenario.runners.filter (fun r =>
            decide (r.WorkflowType = CD_WORKFLOW_TYPE_DEPLOY)
              && decide (r.CdWorkflowId = wfId))).length ≤ 1)
      ∧ ((GetLatestTriggersOfHelmPipelinesStuckInNonTerminalStatuses sweepScenario 360000
            24).1.filter (fun r => runnerInPipeline sweepScenario r 1)).length ≤ 1 :=
  ⟨by decide, sweepScenario_one_deploy_runner,
    (sweep_one_row_per_pipeline sweepScenario 360000 24 (by decide) (by decide) (by decide)
      (by decide) sweepScenario_one_deploy_runner 1).1⟩

/-! ## The latest runner of each listed pipeline -/

theorem mem_FindLatestRunner (s : Store) (pipelineIds : List Int) (runnerType : String)
    (hne : pipelineIds ≠ []) (r : CdWorkflowRunner) :
    r ∈ (FindLatestRunnerByPipelineIdsAndRunnerType s pipelineIds runnerType).1 ↔
      r ∈ s.runners ∧ r.WorkflowType = runnerType
        ∧ ∃ wf ∈ s.workflows, wf.Id = r.CdWorkflowId ∧ wf.PipelineId ∈ pipelineIds
            ∧ ∃ p ∈ s.pipelines, p.Id = wf.PipelineId ∧ p.Deleted = false := by
  have hlen : ¬ pipelineIds.length = 0 := fun h => hne (List.length_eq_zero.mp h)
  unfold FindLatestRunnerByPipelineIdsAndRunnerType
  rw [if_neg hlen]
  simp only [List.mem_filter, Bool.and_eq_true, List.any_eq_true, decide_eq_true_eq,
    Bool.not_eq_true']
  constructor
  · rintro ⟨hr, ⟨wf, hwf, ⟨hid, hin⟩, p, hp, hpid, hdel⟩, hty⟩
    exact ⟨hr, hty, wf, hwf, hid, hin, p, hp, hpid, hdel⟩
  · rintro ⟨hr, hty, wf, hwf, hid, hin, p, hp, hpid, hdel⟩
    exact ⟨hr, ⟨wf, hwf, ⟨hid, hin⟩, p, hp, hpid, hdel⟩, hty⟩

/-- C21, at the failing input: pipeline 1 of `sweepScenario` is listed, not deleted and
has the Deploy runners 10 and 20; `FindLatestRunnerByPipelineIdsAndRunnerType` returns
both of them for it, not only runner 20 of greatest id. -/
theorem FindLatestRunner_returns_every_runner :
    (FindLatestRunnerByPipelineIdsAndRunnerType sweepScenario [1] "DEPLOY").1.map
        (fun r => r.Id) = [10, 20]
      ∧ ((FindLatestRunnerByPipelineIdsAndRunnerType sweepScenario [1] "DEPLOY").1.filter
          (fun r => runnerInPipeline sweepScenario r 1)).length = 2
      ∧ (FindLatestRunnerByPipelineIdsAndRunnerType sweepScenario [1] "DEPLOY").2 = none := by
  decide

/-! ## External runs -/

/-- C22: for a runner whose workflow and pipeline are attached, `IsExternalRun` returns
the pipeline's `RunPreStageInEnv` when the stage type is PRE, its `RunPostStageInEnv`
when it is POST, and false for every other stage type, DEPLOY included; for those other
stage types the result is false whatever the pointers are, nil included, so neither is
followed. -/
theorem IsExternalRun_by_stage (c : CdWorkflowRunnerWithRelations)
    (wf : CdWorkflowWithRelations) (pipeline : Pipeline)
    (hwf : c.CdWorkflow = some wf) (hp : wf.Pipeline = some pipeline) :
    (c.WorkflowType = "PRE" → IsExternalRun c = some pipeline.RunPreStageInEnv)
      ∧ (c.WorkflowType = "POST" → IsExternalRun c = some pipeline.RunPostStageInEnv)
      ∧ (c.WorkflowType ≠ "PRE" → c.WorkflowType ≠ "POST" → IsExternalRun c = some false)
      ∧ (c.WorkflowType = "DEPLOY" → IsExternalRun c = some false)
      ∧ (∀ other : Option CdWorkflowWithRelations,
          c.WorkflowType ≠ "PRE" → c.WorkflowType ≠ "POST" →
          IsExternalRun { c with CdWorkflow := other } = some false) := by
  have hother : ∀ d : CdWorkflowRunnerWithRelations,
      d.WorkflowType ≠ "PRE" → d.WorkflowType ≠ "POST" → IsExternalRun d = some false := by
    intro d h1 h2
    unfold IsExternalRun
    rw [if_neg (by simpa [WorkflowTypePre] using h1), if_neg (by simpa [WorkflowTypePost] using h2)]
  refine ⟨?_, ?_, hother c, ?_, ?_⟩
  · intro hty
    unfold IsExternalRun
    rw [if_pos (by simpa [WorkflowTypePre] using hty), hwf]
    simp only [hp]
  · intro hty
    have hnpre : ¬ c.WorkflowType = WorkflowTypePre := by
      rw [hty]; decide
    unfold IsExternalRun
    rw [if_neg hnpre, if_pos (by simpa [WorkflowTypePost] using hty), hwf]
    simp only [hp]
  · intro hty
    exact hother c (by rw [hty]; decide) (by rw [hty]; decide)
  · intro other h1 h2
    exact hother _ h1 h2

/-- C22, at an instance: the PRE runner `examplePreRunner`, whose pipeline has
`RunPreStageInEnv` set. -/
theorem IsExternalRun_by_stage_witness :
    examplePreRunner.CdWorkflow
        = some { exampleWorkflow 1 1 with
            Pipeline := some { examplePipeline 1 "helm" with RunPreStageInEnv := true } }
      ∧ IsExternalRun examplePreRunner = some true :=
  ⟨rfl, (IsExternalRun_by_stage examplePreRunner
      { exampleWorkflow 1 1 with
        Pipeline := some { examplePipeline 1 "helm" with RunPreStageInEnv := true } }
      { examplePipeline 1 "helm" with RunPreStageInEnv := true } rfl rfl).1 (by decide)⟩

end pipelineConfig
